import Mathlib

/-- Mirrors the `Issue` dataclass of `checks.py`. -/
structure Issue where
  check_id : String
  title : String
  severity : String
  message : String
  nodes : List String
  fixable : Bool := false
deriving DecidableEq, Repr

/-- The host-application state visible to the tool, one field per query API
used by `checks.py`.  `nodeTypeFn n = none` models `cmds.nodeType(n)`
raising; `getAttrFn plug = none` models `cmds.getAttr(plug)` raising;
`keyTimesFn n a = none` models `cmds.keyframe(n, at=a, q=True, tc=True)`
raising.  `deletableFn` says whether `cmds.delete` on an existing node
succeeds. -/
structure Scene where
  allNodes : List String
  nodeTypeFn : String → Option String
  parentsFn : String → List String
  shapesFn : String → List String
  imagePlaneConnFn : String → List String
  getAttrFn : String → Option ℚ
  keyTimesFn : String → String → Option (List ℚ)
  playbackMin : ℚ
  playbackMax : ℚ
  selection : List String
  version : String
  objExistsFn : String → Bool
  deletableFn : String → Bool

/-- Mirrors `cmds.ls(type=t, long=True)`: the listed nodes of type `t`. -/
def lsType (t : String) (s : Scene) : List String :=
  s.allNodes.filter (fun n => s.nodeTypeFn n == some t)

/-- Deleting a node removes it from the node list, makes its type query
raise, removes it from parent/shape/connection listings and makes
`objExists` false; it touches nothing else.  This is the host-side effect
of a successful `cmds.delete(p)` on the queries the tool uses. -/
def Scene.deleteNode (s : Scene) (p : String) : Scene :=
  { s with
    allNodes := s.allNodes.filter (fun n => n ≠ p)
    nodeTypeFn := fun n => if n = p then none else s.nodeTypeFn n
    parentsFn := fun n => if n = p then [] else (s.parentsFn n).filter (fun m => m ≠ p)
    shapesFn := fun n => if n = p then [] else (s.shapesFn n).filter (fun m => m ≠ p)
    imagePlaneConnFn := fun c =>
      if c = p then [] else (s.imagePlaneConnFn c).filter (fun m => m ≠ p)
    objExistsFn := fun n => if n = p then false else s.objExistsFn n }

/- Threaded host-API primitives.  Query calls return the scene unchanged;
`hDelete` is the one mutating call (`cmds.delete`, which raises - and is
caught by the caller - when the node does not exist or cannot be deleted). -/

/-- Threaded `cmds.ls(long=True)`. -/
def hLs (s : Scene) : Scene × List String := (s, s.allNodes)

/-- Threaded `cmds.ls(type=t, long=True)`. -/
def hLsType (t : String) (s : Scene) : Scene × List String := (s, lsType t s)

/-- Threaded `cmds.ls(sl=True, long=True)`. -/
def hLsSelection (s : Scene) : Scene × List String := (s, s.selection)

/-- Threaded `cmds.listRelatives(n, parent=True, fullPath=True) or []`. -/
def hParents (n : String) (s : Scene) : Scene × List String := (s, s.parentsFn n)

/-- Threaded `cmds.listRelatives(n, shapes=True, fullPath=True) or []`. -/
def hShapes (n : String) (s : Scene) : Scene × List String := (s, s.shapesFn n)

/-- Threaded `cmds.listConnections(camShape + ".imagePlane", source=True,
destination=False) or []`. -/
def hConnImagePlane (camShape : String) (s : Scene) : Scene × List String :=
  (s, s.imagePlaneConnFn camShape)

/-- Threaded `cmds.nodeType(n)`; `none` models the call raising. -/
def hNodeType (n : String) (s : Scene) : Scene × Option String := (s, s.nodeTypeFn n)

/-- Threaded `cmds.getAttr(plug)`; `none` models the call raising. -/
def hGetAttr (plug : String) (s : Scene) : Scene × Option ℚ := (s, s.getAttrFn plug)

/-- Threaded `cmds.keyframe(n, at=a, q=True, tc=True)`;
`none` models the call raising. -/
def hKeyframeTimes (n a : String) (s : Scene) : Scene × Option (List ℚ) :=
  (s, s.keyTimesFn n a)

/-- Threaded `cmds.playbackOptions(q=True, min=True)`. -/
def hPlaybackMin (s : Scene) : Scene × ℚ := (s, s.playbackMin)

/-- Threaded `cmds.playbackOptions(q=True, max=True)`. -/
def hPlaybackMax (s : Scene) : Scene × ℚ := (s, s.playbackMax)

/-- Threaded `cmds.about(version=True)`. -/
def hAboutVersion (s : Scene) : Scene × String := (s, s.version)

/-- Threaded `cmds.objExists(n)`. -/
def hObjExists (n : String) (s : Scene) : Scene × Bool := (s, s.objExistsFn n)

/-- Threaded `cmds.delete(p)`: succeeds (returning `true` and the mutated
scene) when the node exists and is deletable, otherwise raises - the
callers catch this, so it is modelled as returning `false` with the scene
unchanged. -/
def hDelete (p : String) (s : Scene) : Scene × Bool :=
  if s.objExistsFn p && s.deletableFn p then (s.deleteNode p, true) else (s, false)

/-- Helper for `shortName`: the last `|`-separated segment of a character
list (the accumulator holds the current segment reversed). -/
def lastSegAux : List Char → List Char → List Char
  | seg, [] => seg.reverse
  | seg, c :: rest => if c = '|' then lastSegAux [] rest else lastSegAux (c :: seg) rest

/-- Mirrors `n.split("|")[-1]` from `checks.py`: the short name is the
segment after the last `|` (the whole name when there is no `|`, the empty
string when the name ends in `|`). -/
def shortName (n : String) : String := String.mk (lastSegAux [] n.data)

/-- Mirrors `_is_default_maya_camera`: the short name is one of
`persp`, `top`, `front`, `side`. -/
def isDefaultMayaCamera (camTr : String) : Bool :=
  ["persp", "top", "front", "side"].contains (shortName camTr)

/-- Mirrors `_camera_shape_from_transform`: the first shape child whose
node type is `camera`. -/
def cameraShapeFromTransform (s : Scene) (camTr : String) : Option String :=
  (s.shapesFn camTr).find? (fun sh => s.nodeTypeFn sh == some "camera")

/-- Mirrors Python `sorted(xs)` on a list of strings. -/
def pySorted (l : List String) : List String :=
  List.insertionSort (fun a b => a ≤ b) l

/-- Mirrors Python `sorted(list(set(xs)))` on a list of strings: the sorted
list of the distinct elements. -/
def pySortedSet (l : List String) : List String := pySorted l.dedup

/-- Mirrors Python `sorted(someSet)` for a set of rationals accumulated from
a list: the sorted list of the distinct elements. -/
def pySortedTimes (l : List ℚ) : List ℚ :=
  List.insertionSort (fun a b => a ≤ b) l.dedup

namespace CameraImagePlaneCheck

def check_id : String := "camera_imageplane"

def title : String := "Camera ImagePlanes"

def severity : String := "ERROR"

/-- The `for cam_shape in camera_shapes:` loop of
`CameraImagePlaneCheck.run`, scene threaded through each host call. -/
def runLoop : Scene → List String → List String → Scene × List String
  | s, [], bad => (s, bad)
  | s, camShape :: rest, bad =>
    let p := hParents camShape s
    let camTr := p.2.headD camShape
    if isDefaultMayaCamera camTr then runLoop p.1 rest bad
    else
      let pc := hConnImagePlane camShape p.1
      if pc.2 ≠ [] then runLoop pc.1 rest (bad ++ [camTr])
      else runLoop pc.1 rest bad

/-- Translation of `CameraImagePlaneCheck.run`. -/
def run (s : Scene) : Scene × Issue :=
  let p1 := hLsType "camera" s
  let p2 := runLoop p1.1 p1.2 []
  (p2.1,
    if p2.2 ≠ [] then
      { check_id := check_id, title := title, severity := severity
        message := "Some cameras have ImagePlanes connected."
        nodes := pySortedSet p2.2, fixable := true }
    else
      { check_id := check_id, title := title, severity := "OK"
        message := "OK", nodes := [], fixable := true })

/-- Pure value of one iteration of the run loop: the reported transform,
if any, for a given camera shape. -/
def badOf (s : Scene) (camShape : String) : Option String :=
  let camTr := (s.parentsFn camShape).headD camShape
  if isDefaultMayaCamera camTr then none
  else if s.imagePlaneConnFn camShape ≠ [] then some camTr
  else none

/-- The list of reported camera transforms, before sorting/deduplication. -/
def badTransforms (s : Scene) : List String :=
  (lsType "camera" s).filterMap (badOf s)

/-- The `for p in planes:` inner loop of `CameraImagePlaneCheck.fix`:
delete each connected image plane, a raising delete is skipped. -/
def fixPlanesLoop : Scene → Bool → List String → Scene × Bool
  | s, changed, [] => (s, changed)
  | s, changed, p :: rest =>
    let d := hDelete p s
    fixPlanesLoop d.1 (changed || d.2) rest

/-- The `for cam_tr in issue.nodes:` outer loop of
`CameraImagePlaneCheck.fix`. -/
def fixLoop : Scene → Bool → List String → Scene × Bool
  | s, changed, [] => (s, changed)
  | s, changed, camTr :: rest =>
    match cameraShapeFromTransform s camTr with
    | none => fixLoop s changed rest
    | some camShape =>
      let pl := hConnImagePlane camShape s
      let d := fixPlanesLoop pl.1 changed pl.2
      fixLoop d.1 d.2 rest

/-- Translation of `CameraImagePlaneCheck.fix`. -/
def fix (s : Scene) (issue : Issue) : Scene × Bool := fixLoop s false issue.nodes

/-- Shadow of `fixPlanesLoop` that records which image planes were actually
deleted (the delete calls that succeeded). -/
def fixPlanesTrace : Scene → List String → Scene × List String
  | s, [] => (s, [])
  | s, p :: rest =>
    let d := hDelete p s
    let r := fixPlanesTrace d.1 rest
    (r.1, (if d.2 then [p] else []) ++ r.2)

/-- Shadow of `fixLoop` recording every node actually deleted by the fix. -/
def fixTrace : Scene → List String → Scene × List String
  | s, [] => (s, [])
  | s, camTr :: rest =>
    match cameraShapeFromTransform s camTr with
    | none => fixTrace s rest
    | some camShape =>
      let d := fixPlanesTrace s (s.imagePlaneConnFn camShape)
      let r := fixTrace d.1 rest
      (r.1, d.2 ++ r.2)

/-- The nodes `CameraImagePlaneCheck.fix` actually deletes from the scene. -/
def fixDeleted (s : Scene) (issue : Issue) : List String := (fixTrace s issue.nodes).2

end CameraImagePlaneCheck

/-- One scene refines another if its node list, successful type queries,
shape listings and image-plane connection listings are contained in the
other's.  Deletions only shrink a scene in this order. -/
def Scene.Sub (s₂ s : Scene) : Prop :=
  (∀ n, n ∈ s₂.allNodes → n ∈ s.allNodes) ∧
  (∀ n t, s₂.nodeTypeFn n = some t → s.nodeTypeFn n = some t) ∧
  (∀ n m, m ∈ s₂.shapesFn n → m ∈ s.shapesFn n) ∧
  (∀ c m, m ∈ s₂.imagePlaneConnFn c → m ∈ s.imagePlaneConnFn c)

/-- A node is untouched between two scene states when its listing,
type query and existence query agree. -/
def UntouchedAt (s₂ s : Scene) (n : String) : Prop :=
  (n ∈ s₂.allNodes ↔ n ∈ s.allNodes) ∧
  s₂.nodeTypeFn n = s.nodeTypeFn n ∧
  s₂.objExistsFn n = s.objExistsFn n

namespace InvalidNamingCharactersCheck

def check_id : String := "invalid_naming"

def title : String := "Invalid Naming Characters"

def severity : String := "WARN"

/-- Character class of the pattern `[a-z0-9_|:]` compiled with
`re.IGNORECASE` (so also `A-Z`), read over ASCII characters. -/
def inClass (c : Char) : Bool :=
  (decide ('a' ≤ c) && decide (c ≤ 'z')) ||
  (decide ('A' ≤ c) && decide (c ≤ 'Z')) ||
  (decide ('0' ≤ c) && decide (c ≤ '9')) ||
  c == '_' || c == '|' || c == ':'

/-- Semantics of `re.compile(r"^[a-z0-9_|:]+$", re.IGNORECASE).search(str)`
for ASCII input: with no MULTILINE flag, `^` only matches at the start, and
`$` matches at the end of the string or just before one trailing newline, so
the pattern matches exactly the nonempty all-in-class strings, possibly
followed by a single trailing newline. -/
def patternSearch (str : String) : Bool :=
  let cs := str.data
  (!cs.isEmpty && cs.all inClass) ||
  (cs.getLast? == some '\n' && !cs.dropLast.isEmpty && cs.dropLast.all inClass)

/-- The `for n in nodes:` loop of `InvalidNamingCharactersCheck.run`.  A node
whose short name fails the pattern is reported unless `cmds.nodeType` says it
is an `imagePlane` (a raising `nodeType` call is ignored and the node is
still reported). -/
def runLoop : Scene → List String → List String → Scene × List String
  | s, [], bad => (s, bad)
  | s, n :: rest, bad =>
    if patternSearch (shortName n) then runLoop s rest bad
    else
      let p := hNodeType n s
      match p.2 with
      | some t => if t == "imagePlane" then runLoop p.1 rest bad
                  else runLoop p.1 rest (bad ++ [n])
      | none => runLoop p.1 rest (bad ++ [n])

/-- Translation of `InvalidNamingCharactersCheck.run`. -/
def run (s : Scene) : Scene × Issue :=
  let p1 := hLs s
  let p2 := runLoop p1.1 p1.2 []
  (p2.1,
    if p2.2 ≠ [] then
      { check_id := check_id, title := title, severity := severity
        message := "Found nodes with invalid characters in their names."
        nodes := pySorted p2.2, fixable := false }
    else
      { check_id := check_id, title := title, severity := "OK"
        message := "OK", nodes := [], fixable := false })

/-- Pure reported-node predicate of the run loop. -/
def isBad (s : Scene) (n : String) : Bool :=
  !patternSearch (shortName n) && !(s.nodeTypeFn n == some "imagePlane")

/-- The reported nodes, before sorting. -/
def badNodes (s : Scene) : List String := s.allNodes.filter (isBad s)

end InvalidNamingCharactersCheck

/-- Python whitespace characters recognised by `str.split()` on ASCII
strings: space, tab, newline, carriage return, vertical tab, form feed. -/
def isPyWhitespace (c : Char) : Bool :=
  c == ' ' || c == '\t' || c == '\n' || c == '\r' || c == '\x0b' || c == '\x0c'

/-- Helper for `pySplitWhitespace`: split a character list at whitespace,
dropping empty segments (the accumulator holds the current token
reversed). -/
def pySplitWsAux : List Char → List Char → List String
  | acc, [] => if acc.isEmpty then [] else [String.mk acc.reverse]
  | acc, c :: rest =>
    if isPyWhitespace c then
      (if acc.isEmpty then [] else [String.mk acc.reverse]) ++ pySplitWsAux [] rest
    else pySplitWsAux (c :: acc) rest

/-- Mirrors Python `str.split()` (no argument) on ASCII strings: split on
runs of whitespace, dropping empty segments. -/
def pySplitWhitespace (str : String) : List String := pySplitWsAux [] str.data

/-- Does a character list match `[0-9]+(_[0-9]+)*`?  This is the body
accepted by Python `int()` after an optional sign (underscores are allowed
as digit-group separators, but not leading, trailing or doubled). -/
def pyDigitsBody (cs : List Char) : Bool :=
  !cs.isEmpty &&
  (cs.headD '0').isDigit &&
  (cs.getLastD '0').isDigit &&
  cs.all (fun c => c.isDigit || c == '_') &&
  noDoubleUnderscore cs
where
  noDoubleUnderscore : List Char → Bool
    | [] => true
    | [_] => true
    | a :: b :: rest => !(a == '_' && b == '_') && noDoubleUnderscore (b :: rest)

/-- Numeric value of a digits-and-underscores body. -/
def pyDigitsVal (cs : List Char) : Nat :=
  cs.foldl (fun acc c => if c.isDigit then acc * 10 + (c.toNat - '0'.toNat) else acc) 0

/-- Mirrors Python `int(token)` on an ASCII token containing no whitespace:
an optional sign followed by `[0-9]+(_[0-9]+)*`; `none` models `ValueError`. -/
def pyIntParse (token : String) : Option Int :=
  match token.data with
  | '+' :: rest => if pyDigitsBody rest then some (pyDigitsVal rest : Int) else none
  | '-' :: rest => if pyDigitsBody rest then some (-(pyDigitsVal rest : Int)) else none
  | cs => if pyDigitsBody cs then some (pyDigitsVal cs : Int) else none

/-- Mirrors `int(str(v).split()[0])` wrapped in `try/except`: `none` when
the split is empty (`IndexError`) or the first token does not parse
(`ValueError`). -/
def firstTokenMajor (v : String) : Option Int :=
  match pySplitWhitespace v with
  | [] => none
  | tok :: _ => pyIntParse tok

namespace MayaVersionCheck

def check_id : String := "maya_version"

def title : String := "Maya Version Compliance"

def severity : String := "WARN"

/-- Constructor parameter of `MayaVersionCheck`. -/
structure Config where
  required_major : Int := 2025
deriving DecidableEq, Repr

/-- Translation of `MayaVersionCheck.run`. -/
def run (cfg : Config) (s : Scene) : Scene × Issue :=
  let p := hAboutVersion s
  let v := p.2
  let major := firstTokenMajor v
  (p.1,
    if major ≠ some cfg.required_major then
      { check_id := check_id, title := title, severity := severity
        message := "Running Maya " ++ v ++ ". Recommended: Maya " ++
          toString cfg.required_major ++ "."
        nodes := [], fixable := false }
    else
      { check_id := check_id, title := title, severity := "OK"
        message := "OK", nodes := [], fixable := false })

end MayaVersionCheck

/-- Mirrors Python `int()` applied to a host float (here a rational):
truncation toward zero, as in `int(cmds.playbackOptions(q=True, min=True))`. -/
def ratTrunc (q : ℚ) : Int := Int.tdiv q.num (q.den : Int)

namespace FrameRangeHandlesCheck

def check_id : String := "frame_range_handles"

def title : String := "Frame Range & Handles"

def severity : String := "WARN"

/-- Constructor parameters of `FrameRangeHandlesCheck`. -/
structure Config where
  shot_start : Int := 101
  shot_end : Int := 131
  handle : Int := 5
deriving DecidableEq, Repr

/-- The `attrs` tuple of `FrameRangeHandlesCheck.run`. -/
def attrs : List String :=
  ["translateX", "translateY", "translateZ", "rotateX", "rotateY", "rotateZ"]

/-- The `for a in attrs:` loop of `_list_key_times`, scene threaded; a
raising `cmds.keyframe` query skips that attribute. -/
def keyTimesLoop : Scene → String → List String → List ℚ → Scene × List ℚ
  | s, _, [], times => (s, times)
  | s, n, a :: rest, times =>
    let p := hKeyframeTimes n a s
    match p.2 with
    | none => keyTimesLoop p.1 n rest times
    | some ks => keyTimesLoop p.1 n rest (times ++ ks)

/-- Translation of `_list_key_times` (over the six animation attributes):
accumulate the key times into a set, return them sorted. -/
def listKeyTimesH (s : Scene) (n : String) : Scene × List ℚ :=
  let p := keyTimesLoop s n attrs []
  (p.1, pySortedTimes p.2)

/-- Pure concatenation of the per-attribute key-time queries. -/
def listKeyTimesRaw (s : Scene) (n : String) : List String → List ℚ
  | [] => []
  | a :: rest => (s.keyTimesFn n a).getD [] ++ listKeyTimesRaw s n rest

/-- The value `_list_key_times(n, attrs)` returns. -/
def listKeyTimes (s : Scene) (n : String) : List ℚ :=
  pySortedTimes (listKeyTimesRaw s n attrs)

/-- The fallback-target loop (`for cam_shape in cmds.ls(type="camera")`),
scene threaded. -/
def camsLoop : Scene → List String → List String → Scene × List String
  | s, [], cams => (s, cams)
  | s, camShape :: rest, cams =>
    let p := hParents camShape s
    let parent := p.2.headD camShape
    if isDefaultMayaCamera parent then camsLoop p.1 rest cams
    else camsLoop p.1 rest (cams ++ [parent])

/-- Pure value of the fallback-target loop: parents of the listed camera
shapes that are not default Maya cameras. -/
def nonDefaultCamTransforms (s : Scene) : List String :=
  (lsType "camera" s).filterMap (fun camShape =>
    let parent := (s.parentsFn camShape).headD camShape
    if isDefaultMayaCamera parent then none else some parent)

/-- The check targets: the current selection if non-empty, otherwise the
non-default camera transforms. -/
def targets (s : Scene) : List String :=
  if s.selection.isEmpty then nonDefaultCamTransforms s else s.selection

/-- Is target `n` reported as missing handle keys?  True when it has no keys
at all, or lacks a key within `0.001` of either handle frame. -/
def missingFor (expMin expMax : ℚ) (s : Scene) (n : String) : Bool :=
  let times := listKeyTimes s n
  times.isEmpty ||
  !(times.any (fun t => decide (|t - expMin| < 1/1000)) &&
    times.any (fun t => decide (|t - expMax| < 1/1000)))

/-- The `for n in targets:` loop of `FrameRangeHandlesCheck.run`, scene
threaded. -/
def missingLoop (expMin expMax : ℚ) : Scene → List String → List String → Scene × List String
  | s, [], missing => (s, missing)
  | s, n :: rest, missing =>
    let pe := hObjExists n s
    if !pe.2 then missingLoop expMin expMax pe.1 rest missing
    else
      let pt := listKeyTimesH pe.1 n
      let times := pt.2
      if times.isEmpty then missingLoop expMin expMax pt.1 rest (missing ++ [n])
      else
        if !(times.any (fun t => decide (|t - expMin| < 1/1000)) &&
             times.any (fun t => decide (|t - expMax| < 1/1000))) then
          missingLoop expMin expMax pt.1 rest (missing ++ [n])
        else missingLoop expMin expMax pt.1 rest missing

/-- Pure value of the missing-nodes loop. -/
def missingNodes (expMin expMax : ℚ) (s : Scene) (ts : List String) : List String :=
  ts.filter (fun n => s.objExistsFn n && missingFor expMin expMax s n)

/-- The playback-range problem messages. -/
def problems (cfg : Config) (s : Scene) : List String :=
  let expMin := cfg.shot_start - cfg.handle
  let expMax := cfg.shot_end + cfg.handle
  let pbMin := ratTrunc s.playbackMin
  let pbMax := ratTrunc s.playbackMax
  if pbMin ≠ expMin ∨ pbMax ≠ expMax then
    ["Playback range is " ++ toString pbMin ++ "-" ++ toString pbMax ++
      " (expected " ++ toString expMin ++ "-" ++ toString expMax ++ ")."]
  else []

/-- The reported missing-handle-key nodes. -/
def missing (cfg : Config) (s : Scene) : List String :=
  missingNodes (((cfg.shot_start - cfg.handle : Int) : ℚ))
    (((cfg.shot_end + cfg.handle : Int) : ℚ)) s (targets s)

/-- Translation of `FrameRangeHandlesCheck.run`. -/
def run (cfg : Config) (s : Scene) : Scene × Issue :=
  let expMin := cfg.shot_start - cfg.handle
  let expMax := cfg.shot_end + cfg.handle
  let p1 := hPlaybackMin s
  let p2 := hPlaybackMax p1.1
  let pbMin := ratTrunc p1.2
  let pbMax := ratTrunc p2.2
  let probs : List String :=
    if pbMin ≠ expMin ∨ pbMax ≠ expMax then
      ["Playback range is " ++ toString pbMin ++ "-" ++ toString pbMax ++
        " (expected " ++ toString expMin ++ "-" ++ toString expMax ++ ")."]
    else []
  let p3 := hLsSelection p2.1
  let p4 :=
    if p3.2.isEmpty then
      let pc := hLsType "camera" p3.1
      camsLoop pc.1 pc.2 []
    else (p3.1, p3.2)
  let p5 := missingLoop ((expMin : Int) : ℚ) ((expMax : Int) : ℚ) p4.1 p4.2 []
  (p5.1,
    if probs ≠ [] ∨ p5.2 ≠ [] then
      { check_id := check_id, title := title, severity := severity
        message := if probs ≠ [] then String.intercalate " / " probs
                   else "Missing handle keys on targets."
        nodes := pySortedSet p5.2, fixable := false }
    else
      { check_id := check_id, title := title, severity := "OK"
        message := "OK", nodes := [], fixable := false })

end FrameRangeHandlesCheck

namespace CameraClippingPlanesCheck

def check_id : String := "camera_clipping"

def title : String := "Camera Clipping Planes"

def severity : String := "WARN"

/-- Constructor parameters of `CameraClippingPlanesCheck`. -/
structure Config where
  near_max : ℚ := 1
  far_min : ℚ := 5000
deriving DecidableEq, Repr

/-- The `for cam_shape in camera_shapes:` loop of
`CameraClippingPlanesCheck.run`, scene threaded; a raising `getAttr`
(on either clip attribute) skips the camera. -/
def runLoop (cfg : Config) : Scene → List String → List String → Scene × List String
  | s, [], bad => (s, bad)
  | s, camShape :: rest, bad =>
    let p := hParents camShape s
    let camTr := p.2.headD camShape
    if isDefaultMayaCamera camTr then runLoop cfg p.1 rest bad
    else
      let pn := hGetAttr (camShape ++ ".nearClipPlane") p.1
      match pn.2 with
      | none => runLoop cfg pn.1 rest bad
      | some near =>
        let pf := hGetAttr (camShape ++ ".farClipPlane") pn.1
        match pf.2 with
        | none => runLoop cfg pf.1 rest bad
        | some far =>
          if near > cfg.near_max ∨ far < cfg.far_min then
            runLoop cfg pf.1 rest (bad ++ [camTr])
          else runLoop cfg pf.1 rest bad

/-- Translation of `CameraClippingPlanesCheck.run`. -/
def run (cfg : Config) (s : Scene) : Scene × Issue :=
  let p1 := hLsType "camera" s
  let p2 := runLoop cfg p1.1 p1.2 []
  (p2.1,
    if p2.2 ≠ [] then
      { check_id := check_id, title := title, severity := severity
        message := "Some cameras have risky clipping planes (near > " ++
          toString cfg.near_max ++ " or far < " ++ toString cfg.far_min ++ ")."
        nodes := pySortedSet p2.2, fixable := false }
    else
      { check_id := check_id, title := title, severity := "OK"
        message := "OK", nodes := [], fixable := false })

/-- Pure value of one iteration of the clipping loop. -/
def badOf (cfg : Config) (s : Scene) (camShape : String) : Option String :=
  let camTr := (s.parentsFn camShape).headD camShape
  if isDefaultMayaCamera camTr then none
  else
    match s.getAttrFn (camShape ++ ".nearClipPlane"),
          s.getAttrFn (camShape ++ ".farClipPlane") with
    | some near, some far =>
      if near > cfg.near_max ∨ far < cfg.far_min then some camTr else none
    | _, _ => none

/-- The reported camera transforms, before sorting/deduplication. -/
def badTransforms (cfg : Config) (s : Scene) : List String :=
  (lsType "camera" s).filterMap (badOf cfg s)

end CameraClippingPlanesCheck

/-- A check object as the UI consumes it (the `BaseCheck` interface);
`run` threads the scene, `fix` may mutate it. -/
structure CheckObj where
  check_id : String
  title : String
  run : Scene → Scene × Issue
  fix : Scene → Issue → Scene × Bool

/-- Mirrors `BaseCheck.fix`: does nothing and returns `False`. -/
def baseFix (s : Scene) (_ : Issue) : Scene × Bool := (s, false)

/-- `CameraImagePlaneCheck()` as a check object. -/
def cameraImagePlaneObj : CheckObj :=
  { check_id := CameraImagePlaneCheck.check_id
    title := CameraImagePlaneCheck.title
    run := CameraImagePlaneCheck.run
    fix := CameraImagePlaneCheck.fix }

/-- `InvalidNamingCharactersCheck()` as a check object. -/
def invalidNamingObj : CheckObj :=
  { check_id := InvalidNamingCharactersCheck.check_id
    title := InvalidNamingCharactersCheck.title
    run := InvalidNamingCharactersCheck.run
    fix := baseFix }

/-- `MayaVersionCheck(required_major=2025)` as a check object. -/
def mayaVersionObj : CheckObj :=
  { check_id := MayaVersionCheck.check_id
    title := MayaVersionCheck.title
    run := MayaVersionCheck.run { required_major := 2025 }
    fix := baseFix }

/-- `FrameRangeHandlesCheck(shot_start=101, shot_end=131, handle=5)` as a
check object. -/
def frameRangeObj : CheckObj :=
  { check_id := FrameRangeHandlesCheck.check_id
    title := FrameRangeHandlesCheck.title
    run := FrameRangeHandlesCheck.run
      { shot_start := 101, shot_end := 131, handle := 5 }
    fix := baseFix }

/-- `CameraClippingPlanesCheck(near_max=1.0, far_min=5000.0)` as a check
object. -/
def cameraClippingObj : CheckObj :=
  { check_id := CameraClippingPlanesCheck.check_id
    title := CameraClippingPlanesCheck.title
    run := CameraClippingPlanesCheck.run { near_max := 1, far_min := 5000 }
    fix := baseFix }

/-- Translation of `default_checks()` with its literal constructor
arguments. -/
def defaultChecks : List CheckObj :=
  [cameraImagePlaneObj, invalidNamingObj, mayaVersionObj, frameRangeObj,
   cameraClippingObj]

/-- A check as the harness sees it: `run` may raise (`Except.error` carries
the exception text `str(e)`), and `fix` may raise after partially mutating
the scene (the error carries both). -/
structure HCheck where
  check_id : String
  title : String
  run : Scene → Except String Issue
  fix : Scene → Issue → Except (String × Scene) (Scene × Bool)

/-- One row of the checks table: the check id stored as row data, and the
texts of the Status/Count/Fix columns. -/
structure TableRow where
  rowId : String
  statusCol : String
  countCol : String
  fixCol : String
deriving DecidableEq, Repr

/-- The mutable widget state of `ValidatorWindow` that the claims are
about: the issue dict, the table rows, the header status label, the details
pane (message, node list, button enablement), the log, and the current
table selection. -/
structure UIState where
  checks : List HCheck
  issues : List (String × Issue)
  rows : List TableRow
  statusText : String
  detailMsg : String
  detailNodes : List String
  fixBtnEnabled : Bool
  selectBtnEnabled : Bool
  log : List String
  currentCheckId : Option String

/-- Dict write `self.issues[check_id] = issue` on an ordered association
list. -/
def insertIssue : List (String × Issue) → String → Issue → List (String × Issue)
  | [], k, v => [(k, v)]
  | (k0, v0) :: rest, k, v =>
    if k0 = k then (k, v) :: rest else (k0, v0) :: insertIssue rest k v

/-- Dict read `self.issues.get(check_id)`. -/
def lookupIssue : List (String × Issue) → String → Option Issue
  | [], _ => none
  | (k0, v0) :: rest, k => if k0 = k then some v0 else lookupIssue rest k

/-- Mirrors `ValidatorWindow._log`. -/
def addLog (st : UIState) (txt : String) : UIState := { st with log := st.log ++ [txt] }

/-- Mirrors `ValidatorWindow._get_check`. -/
def getCheck (cs : List HCheck) (cid : String) : Option HCheck :=
  cs.find? (fun c => c.check_id == cid)

/-- The texts `_set_row_for_issue` writes into the matching row. -/
def rowOf (issue : Issue) : TableRow :=
  if issue.severity = "OK" then
    { rowId := issue.check_id, statusCol := "OK", countCol := "0"
      fixCol := if issue.fixable then "Yes" else "—" }
  else
    { rowId := issue.check_id, statusCol := issue.severity
      countCol := toString issue.nodes.length
      fixCol := if issue.fixable then "Yes" else "—" }

/-- Mirrors `ValidatorWindow._set_row_for_issue`: rewrite the first row
whose stored id matches the issue's check id, leave every other row. -/
def setRowForIssue : List TableRow → Issue → List TableRow
  | [], _ => []
  | r :: rest, issue =>
    if r.rowId = issue.check_id then rowOf issue :: rest
    else r :: setRowForIssue rest issue

/-- The first table row carrying a given check id. -/
def findRow (rows : List TableRow) (cid : String) : Option TableRow :=
  rows.find? (fun r => r.rowId == cid)

/-- The status-label text `_refresh_header` computes from the stored
issues (severity counts over the last runs). -/
def headerText (issues : List (String × Issue)) (checks : List HCheck) : String :=
  let err := issues.countP (fun kv => kv.2.severity == "ERROR")
  let warn := issues.countP (fun kv => kv.2.severity == "WARN")
  let ok := issues.countP (fun kv => kv.2.severity == "OK")
  if issues ≠ [] then
    toString issues.length ++ " checks · " ++ toString err ++ " error · " ++
      toString warn ++ " warning · " ++ toString ok ++ " ok"
  else toString checks.length ++ " checks · Ready"

/-- Mirrors `ValidatorWindow._refresh_header`. -/
def refreshHeader (st : UIState) : UIState :=
  { st with statusText := headerText st.issues st.checks }

/-- Mirrors `ValidatorWindow._render_details`. -/
def renderDetails (st : UIState) (issue : Option Issue) : UIState :=
  match issue with
  | none =>
    { st with
      detailNodes := [], detailMsg := "Select a check and run it.",
      fixBtnEnabled := false, selectBtnEnabled := false }
  | some issue =>
    if issue.severity = "OK" then
      { st with
        detailNodes := [], detailMsg := "✅ OK",
        fixBtnEnabled := false, selectBtnEnabled := false }
    else
      { st with
        detailNodes := issue.nodes
        detailMsg := (if issue.severity = "ERROR" then "⛔" else "⚠️") ++ " " ++
          issue.severity ++ ": " ++ issue.message
        selectBtnEnabled := !issue.nodes.isEmpty
        fixBtnEnabled := issue.fixable && !issue.nodes.isEmpty }

/-- Mirrors `ValidatorWindow._on_table_selection_changed`. -/
def onTableSelectionChanged (st : UIState) : UIState :=
  match st.currentCheckId with
  | none => renderDetails st none
  | some cid => renderDetails st (lookupIssue st.issues cid)

/-- The issue `_run_check` stores: the result of `check.run()`, or the
synthesized `ERROR` issue when it raised. -/
def harnessIssue (c : HCheck) (s : Scene) : Issue :=
  match c.run s with
  | .ok i => i
  | .error e =>
    { check_id := c.check_id, title := c.title, severity := "ERROR"
      message := "Check failed: " ++ e, nodes := [], fixable := false }

/-- Translation of `ValidatorWindow._run_check`: store the issue under the
check's id, update its table row, return it. -/
def runCheckH (st : UIState) (c : HCheck) (s : Scene) : UIState × Issue :=
  let issue := harnessIssue c s
  ({ st with issues := insertIssue st.issues c.check_id issue
             rows := setRowForIssue st.rows issue }, issue)

/-- The log line `_on_run_all` appends after running one check. -/
def runAllLogLine (c : HCheck) (issue : Issue) : String :=
  if issue.severity = "OK" then "✅ " ++ c.title ++ ": OK"
  else issue.severity ++ ": " ++ c.title ++ " — " ++
    toString issue.nodes.length ++ " item(s)"

/-- The `for c in self.checks:` loop of `_on_run_all`. -/
def runAllLoop (s : Scene) : UIState → List HCheck → UIState
  | st, [] => st
  | st, c :: rest =>
    let p := runCheckH st c s
    runAllLoop s (addLog p.1 (runAllLogLine c p.2)) rest

/-- Translation of `ValidatorWindow._on_run_all`. -/
def onRunAll (st : UIState) (s : Scene) : UIState :=
  let st1 := addLog st "Running all checks…"
  let st2 := runAllLoop s st1 st1.checks
  let st3 := addLog st2 "Done.\n"
  let st4 := refreshHeader st3
  onTableSelectionChanged st4

/-- Translation of `ValidatorWindow._on_fix_selected`: under the guards
(selected check found, stored issue present, fixable, non-empty node list),
run the fix and then re-run the check against the post-fix scene. -/
def onFixSelected (st : UIState) (s : Scene) : UIState × Scene :=
  match st.currentCheckId with
  | none => (st, s)
  | some cid =>
    match getCheck st.checks cid, lookupIssue st.issues cid with
    | some c, some issue =>
      if issue.fixable && !issue.nodes.isEmpty then
        let st1 := addLog st ("Fixing: " ++ c.title ++ " …")
        match c.fix s issue with
        | .error es => (addLog st1 ("ERROR during fix: " ++ es.1 ++ "\n"), es.2)
        | .ok r =>
          let st2 := addLog st1 (if r.2 then "Fix applied.\n" else "No changes made.\n")
          let p := runCheckH st2 c r.1
          let st3 := refreshHeader p.1
          (renderDetails st3 (some p.2), r.1)
      else (st, s)
    | _, _ => (st, s)

/-- An empty host scene (no nodes, nothing selected, all guarded queries
raise). -/
def emptyScene : Scene :=
  { allNodes := [], nodeTypeFn := fun _ => none, parentsFn := fun _ => []
    shapesFn := fun _ => [], imagePlaneConnFn := fun _ => []
    getAttrFn := fun _ => none, keyTimesFn := fun _ _ => none
    playbackMin := 96, playbackMax := 136, selection := [], version := "2025"
    objExistsFn := fun _ => false, deletableFn := fun _ => false }

/-- A harness check whose `run()` always raises `EXC-42`. -/
def errCheck : HCheck :=
  { check_id := "err_check", title := "Err Check"
    run := fun _ => .error "EXC-42", fix := fun s _ => .ok (s, false) }

/-- A freshly-built window state holding only `errCheck`. -/
def errState : UIState :=
  { checks := [errCheck], issues := [], rows := [⟨"err_check", "—", "—", "—"⟩]
    statusText := "", detailMsg := "", detailNodes := []
    fixBtnEnabled := false, selectBtnEnabled := false, log := []
    currentCheckId := none }

/-- The pre-fix issue of the toy check below. -/
def toyBadIssue : Issue :=
  { check_id := "toy", title := "Toy", severity := "WARN", message := "bad"
    nodes := ["n1"], fixable := true }

/-- A toy harness check: it reports node `n1` while that node exists, and
its fix deletes `n1`. -/
def toyCheck : HCheck :=
  { check_id := "toy", title := "Toy"
    run := fun sc => .ok (if sc.objExistsFn "n1" then toyBadIssue else
      { check_id := "toy", title := "Toy", severity := "OK", message := "OK"
        nodes := [], fixable := true })
    fix := fun sc _ => .ok (sc.deleteNode "n1", true) }

/-- A scene containing just the node `n1`. -/
def toyScene : Scene :=
  { emptyScene with
    allNodes := ["n1"], objExistsFn := fun n => n == "n1"
    deletableFn := fun _ => true }

/-- A window state with the toy check selected and its pre-fix issue
stored. -/
def toyState : UIState :=
  { checks := [toyCheck], issues := [("toy", toyBadIssue)]
    rows := [⟨"toy", "WARN", "1", "Yes"⟩], statusText := "", detailMsg := "old"
    detailNodes := ["n1"], fixBtnEnabled := true, selectBtnEnabled := true
    log := [], currentCheckId := some "toy" }

/-- A scene whose playback range and selected control satisfy the default
frame-range check (keys at 96 and 136 on `translateX`). -/
def frScene : Scene :=
  { emptyScene with
    playbackMin := 96, playbackMax := 136, selection := ["ctrl"]
    objExistsFn := fun n => n == "ctrl"
    keyTimesFn := fun n a =>
      if n = "ctrl" && a = "translateX" then some [96, 136] else none }

/-- The default configuration of `FrameRangeHandlesCheck`. -/
def frCfg : FrameRangeHandlesCheck.Config :=
  { shot_start := 101, shot_end := 131, handle := 5 }

/-- What Maya itself guarantees about a listed node's short name: nonempty,
ASCII, and containing no newline.  (Maya node names cannot be empty and
cannot contain control characters; the regex model `patternSearch` is exact
on such strings.) -/
def mayaNameWF (short : String) : Prop :=
  short ≠ "" ∧ ∀ c ∈ short.data, c.toNat < 128 ∧ c ≠ '\n'

instance (short : String) : Decidable (mayaNameWF short) := by
  unfold mayaNameWF
  infer_instance

/-- A scene with one invalidly named node and one valid node. -/
def namingScene : Scene :=
  { emptyScene with
    allNodes := ["bad#name", "good_node"]
    nodeTypeFn := fun _ => some "transform" }

/-- A scene with one non-default camera whose near clip plane is risky. -/
def clipScene : Scene :=
  { emptyScene with
    allNodes := ["cam1", "cam1Shape"]
    nodeTypeFn := fun n => if n = "cam1Shape" then some "camera" else some "transform"
    parentsFn := fun n => if n = "cam1Shape" then ["cam1"] else []
    getAttrFn := fun plug =>
      if plug = "cam1Shape.nearClipPlane" then some 5
      else if plug = "cam1Shape.farClipPlane" then some 10000 else none }

/-- The default configuration of `CameraClippingPlanesCheck`. -/
def clipCfg : CameraClippingPlanesCheck.Config := { near_max := 1, far_min := 5000 }

/-- The issue `CameraImagePlaneCheck.fix` receives in the concrete fix
scenario below. -/
def ipIssue : Issue :=
  { check_id := "camera_imageplane", title := "Camera ImagePlanes"
    severity := "ERROR", message := "Some cameras have ImagePlanes connected."
    nodes := ["cam1"], fixable := true }

/-- A scene with one camera `cam1` (shape `cam1Shape`) that has the image
plane `ip1` connected, plus an unrelated node. -/
def fixScene : Scene :=
  { emptyScene with
    allNodes := ["cam1", "cam1Shape", "ip1", "bystander"]
    nodeTypeFn := fun n => if n = "cam1Shape" then some "camera" else some "transform"
    shapesFn := fun n => if n = "cam1" then ["cam1Shape"] else []
    imagePlaneConnFn := fun c => if c = "cam1Shape" then ["ip1"] else []
    objExistsFn := fun n => ["cam1", "cam1Shape", "ip1", "bystander"].contains n
    deletableFn := fun _ => true }

/-! ### Theorems -/

theorem mem_pySorted {l : List String} {x : String} : x ∈ pySorted l ↔ x ∈ l := by
  simp [pySorted]

theorem mem_pySortedSet {l : List String} {x : String} : x ∈ pySortedSet l ↔ x ∈ l := by
  simp [pySortedSet, mem_pySorted]

theorem pySorted_sorted (l : List String) :
    List.Sorted (fun a b => a ≤ b) (pySorted l) :=
  List.sorted_insertionSort _ l

theorem pySortedSet_sorted (l : List String) :
    List.Sorted (fun a b => a ≤ b) (pySortedSet l) :=
  pySorted_sorted _

theorem pySortedSet_nodup (l : List String) : (pySortedSet l).Nodup :=
  ((List.perm_insertionSort _ _).nodup_iff).mpr l.nodup_dedup

theorem mem_pySortedTimes {l : List ℚ} {x : ℚ} : x ∈ pySortedTimes l ↔ x ∈ l := by
  simp [pySortedTimes]

theorem pySortedTimes_eq_nil {l : List ℚ} : pySortedTimes l = [] ↔ l = [] := by
  constructor
  · intro h
    cases l with
    | nil => rfl
    | cons a as =>
      exact absurd (mem_pySortedTimes.mpr (List.mem_cons_self a as)) (by simp [h])
  · intro h
    subst h
    rfl

theorem CameraImagePlaneCheck.imagePlane_runLoop_spec (s : Scene) (shapes : List String) (bad : List String) :
    runLoop s shapes bad = (s, bad ++ shapes.filterMap (badOf s)) := by
  induction shapes generalizing bad with
  | nil => simp [runLoop]
  | cons camShape rest ih =>
    by_cases hdef : isDefaultMayaCamera ((s.parentsFn camShape).head?.getD camShape)
    · simp [runLoop, hParents, hdef, ih, badOf, List.filterMap_cons]
    · by_cases hpl : s.imagePlaneConnFn camShape = []
      · simp [runLoop, hParents, hConnImagePlane, hdef, hpl, ih, badOf, List.filterMap_cons]
      · simp [runLoop, hParents, hConnImagePlane, hdef, hpl, ih, badOf, List.filterMap_cons]

theorem CameraImagePlaneCheck.imagePlane_run_eq (s : Scene) :
    run s = (s,
      if badTransforms s ≠ [] then
        { check_id := check_id, title := title, severity := severity
          message := "Some cameras have ImagePlanes connected."
          nodes := pySortedSet (badTransforms s), fixable := true }
      else
        { check_id := check_id, title := title, severity := "OK"
          message := "OK", nodes := [], fixable := true }) := by
  simp [run, hLsType, imagePlane_runLoop_spec, badTransforms]

theorem CameraImagePlaneCheck.fixPlanesLoop_eq_trace (s : Scene) (changed : Bool) (ps : List String) :
    fixPlanesLoop s changed ps =
      ((fixPlanesTrace s ps).1, changed || !(fixPlanesTrace s ps).2.isEmpty) := by
  induction ps generalizing s changed with
  | nil => simp [fixPlanesLoop, fixPlanesTrace]
  | cons p rest ih =>
    simp only [fixPlanesLoop, fixPlanesTrace, ih]
    cases hd : (hDelete p s).2 <;> simp [Bool.or_assoc]

theorem list_isEmpty_append {α : Type} (A B : List α) :
    (A ++ B).isEmpty = (A.isEmpty && B.isEmpty) := by
  cases A <;> simp

theorem CameraImagePlaneCheck.fixLoop_eq_trace (s : Scene) (changed : Bool) (nodes : List String) :
    fixLoop s changed nodes =
      ((fixTrace s nodes).1, changed || !(fixTrace s nodes).2.isEmpty) := by
  induction nodes generalizing s changed with
  | nil => simp [fixLoop, fixTrace]
  | cons camTr rest ih =>
    simp only [fixLoop, fixTrace]
    cases hsh : cameraShapeFromTransform s camTr with
    | none => simp [ih]
    | some camShape =>
      simp only [hConnImagePlane, fixPlanesLoop_eq_trace, ih, list_isEmpty_append,
        Bool.not_and, Bool.or_assoc]

theorem CameraImagePlaneCheck.fix_eq_trace (s : Scene) (issue : Issue) :
    fix s issue = ((fixTrace s issue.nodes).1, !(fixDeleted s issue).isEmpty) := by
  simp [fix, fixLoop_eq_trace, fixDeleted]

theorem Scene.Sub.rfl (s : Scene) : Scene.Sub s s :=
  ⟨fun _ h => h, fun _ _ h => h, fun _ _ h => h, fun _ _ h => h⟩

theorem Scene.Sub.trans {s₃ s₂ s : Scene} (h₂ : Scene.Sub s₃ s₂) (h₁ : Scene.Sub s₂ s) :
    Scene.Sub s₃ s :=
  ⟨fun n h => h₁.1 n (h₂.1 n h),
   fun n t h => h₁.2.1 n t (h₂.2.1 n t h),
   fun n m h => h₁.2.2.1 n m (h₂.2.2.1 n m h),
   fun c m h => h₁.2.2.2 c m (h₂.2.2.2 c m h)⟩

theorem deleteNode_sub (s : Scene) (p : String) : Scene.Sub (s.deleteNode p) s := by
  refine ⟨?_, ?_, ?_, ?_⟩
  · intro n h
    exact (List.mem_filter.mp h).1
  · intro n t h
    simp only [Scene.deleteNode] at h
    split at h
    · exact absurd h (by simp)
    · exact h
  · intro n m h
    simp only [Scene.deleteNode] at h
    split at h
    · exact absurd h (by simp)
    · exact (List.mem_filter.mp h).1
  · intro c m h
    simp only [Scene.deleteNode] at h
    split at h
    · exact absurd h (by simp)
    · exact (List.mem_filter.mp h).1

theorem hDelete_fst_sub (p : String) (s : Scene) : Scene.Sub (hDelete p s).1 s := by
  unfold hDelete
  split
  · exact deleteNode_sub s p
  · exact Scene.Sub.rfl s

theorem fixPlanesTrace_fst_sub (s : Scene) (ps : List String) :
    Scene.Sub (CameraImagePlaneCheck.fixPlanesTrace s ps).1 s := by
  induction ps generalizing s with
  | nil => exact Scene.Sub.rfl s
  | cons p rest ih =>
    exact Scene.Sub.trans (ih (hDelete p s).1) (hDelete_fst_sub p s)

theorem fixTrace_fst_sub (s : Scene) (nodes : List String) :
    Scene.Sub (CameraImagePlaneCheck.fixTrace s nodes).1 s := by
  induction nodes generalizing s with
  | nil => exact Scene.Sub.rfl s
  | cons camTr rest ih =>
    simp only [CameraImagePlaneCheck.fixTrace]
    cases hsh : cameraShapeFromTransform s camTr with
    | none => exact ih s
    | some camShape =>
      exact Scene.Sub.trans (ih _) (fixPlanesTrace_fst_sub s _)

theorem untouchedAt_rfl (s : Scene) (n : String) : UntouchedAt s s n :=
  ⟨Iff.rfl, rfl, rfl⟩

theorem untouchedAt_trans {s₃ s₂ s : Scene} {n : String}
    (h₂ : UntouchedAt s₃ s₂ n) (h₁ : UntouchedAt s₂ s n) : UntouchedAt s₃ s n :=
  ⟨h₂.1.trans h₁.1, h₂.2.1.trans h₁.2.1, h₂.2.2.trans h₁.2.2⟩

theorem deleteNode_untouchedAt {p n : String} (s : Scene) (hne : n ≠ p) :
    UntouchedAt (s.deleteNode p) s n := by
  refine ⟨?_, ?_, ?_⟩
  · simp [Scene.deleteNode, List.mem_filter, hne]
  · simp [Scene.deleteNode, hne]
  · simp [Scene.deleteNode, hne]

theorem fixPlanesTrace_untouchedAt (s : Scene) (ps : List String) (n : String)
    (h : n ∉ (CameraImagePlaneCheck.fixPlanesTrace s ps).2) :
    UntouchedAt (CameraImagePlaneCheck.fixPlanesTrace s ps).1 s n := by
  induction ps generalizing s with
  | nil => exact untouchedAt_rfl s n
  | cons p rest ih =>
    by_cases hc : (s.objExistsFn p && s.deletableFn p) = true
    · have hd : hDelete p s = (s.deleteNode p, true) := by simp [hDelete, hc]
      simp only [CameraImagePlaneCheck.fixPlanesTrace, hd, if_true, List.mem_append,
        List.mem_singleton, List.cons_append, List.nil_append, List.mem_cons] at h ⊢
      push_neg at h
      exact untouchedAt_trans (ih (s.deleteNode p) h.2)
        (deleteNode_untouchedAt s h.1)
    · have hd : hDelete p s = (s, false) := by simp [hDelete, hc]
      simp only [CameraImagePlaneCheck.fixPlanesTrace, hd, Bool.false_eq_true, if_false,
        List.nil_append] at h ⊢
      exact ih s h

theorem fixTrace_untouchedAt (s : Scene) (nodes : List String) (n : String)
    (h : n ∉ (CameraImagePlaneCheck.fixTrace s nodes).2) :
    UntouchedAt (CameraImagePlaneCheck.fixTrace s nodes).1 s n := by
  induction nodes generalizing s with
  | nil => exact untouchedAt_rfl s n
  | cons camTr rest ih =>
    cases hsh : cameraShapeFromTransform s camTr with
    | none =>
      simp only [CameraImagePlaneCheck.fixTrace, hsh] at h ⊢
      exact ih s h
    | some camShape =>
      simp only [CameraImagePlaneCheck.fixTrace, hsh, List.mem_append] at h ⊢
      push_neg at h
      exact untouchedAt_trans (ih _ h.2) (fixPlanesTrace_untouchedAt s _ n h.1)

theorem fixPlanesTrace_subset (s : Scene) (ps : List String) :
    ∀ p ∈ (CameraImagePlaneCheck.fixPlanesTrace s ps).2, p ∈ ps := by
  induction ps generalizing s with
  | nil => simp [CameraImagePlaneCheck.fixPlanesTrace]
  | cons q rest ih =>
    intro p hp
    simp only [CameraImagePlaneCheck.fixPlanesTrace, List.mem_append] at hp
    rcases hp with hp | hp
    · rcases (hDelete q s).2 with _ | _ <;> simp_all
    · exact List.mem_cons_of_mem q (ih _ p hp)

theorem cameraShapeFromTransform_spec {s : Scene} {camTr camShape : String}
    (h : cameraShapeFromTransform s camTr = some camShape) :
    camShape ∈ s.shapesFn camTr ∧ s.nodeTypeFn camShape = some "camera" := by
  unfold cameraShapeFromTransform at h
  refine ⟨List.mem_of_find?_eq_some h, ?_⟩
  have hb := List.find?_some h
  simpa using hb

theorem fixTrace_provenance (s₀ s : Scene) (nodes : List String)
    (hsub : Scene.Sub s₀ s) :
    ∀ p ∈ (CameraImagePlaneCheck.fixTrace s₀ nodes).2,
      ∃ camTr ∈ nodes, ∃ sh ∈ s.shapesFn camTr,
        s.nodeTypeFn sh = some "camera" ∧ p ∈ s.imagePlaneConnFn sh := by
  induction nodes generalizing s₀ with
  | nil => simp [CameraImagePlaneCheck.fixTrace]
  | cons camTr rest ih =>
    intro p hp
    simp only [CameraImagePlaneCheck.fixTrace] at hp
    cases hsh : cameraShapeFromTransform s₀ camTr with
    | none =>
      rw [hsh] at hp
      obtain ⟨c, hc, rest_h⟩ := ih s₀ hsub p hp
      exact ⟨c, List.mem_cons_of_mem camTr hc, rest_h⟩
    | some camShape =>
      rw [hsh] at hp
      simp only [List.mem_append] at hp
      rcases hp with hp | hp
      · obtain ⟨hshape, htype⟩ := cameraShapeFromTransform_spec hsh
        have htype₂ : s.nodeTypeFn camShape = some "camera" :=
          hsub.2.1 camShape "camera" htype
        have hconn : p ∈ s₀.imagePlaneConnFn camShape :=
          fixPlanesTrace_subset s₀ _ p hp
        exact ⟨camTr, List.mem_cons_self camTr rest,
          camShape, hsub.2.2.1 camTr camShape hshape, htype₂,
          hsub.2.2.2 camShape p hconn⟩
      · obtain ⟨c, hc, rest_h⟩ :=
          ih _ (Scene.Sub.trans (fixPlanesTrace_fst_sub s₀ _) hsub) p hp
        exact ⟨c, List.mem_cons_of_mem camTr hc, rest_h⟩

theorem InvalidNamingCharactersCheck.naming_runLoop_spec (s : Scene) (nodes : List String) (bad : List String) :
    runLoop s nodes bad = (s, bad ++ nodes.filter (isBad s)) := by
  induction nodes generalizing bad with
  | nil => simp [runLoop]
  | cons n rest ih =>
    by_cases hpat : patternSearch (shortName n)
    · simp [runLoop, hpat, ih, isBad, List.filter_cons]
    · cases ht : s.nodeTypeFn n with
      | none => simp [runLoop, hpat, hNodeType, ht, ih, isBad, List.filter_cons]
      | some t =>
        by_cases hip : t = "imagePlane"
        · simp [runLoop, hpat, hNodeType, ht, hip, ih, isBad, List.filter_cons]
        · simp [runLoop, hpat, hNodeType, ht, hip, ih, isBad, List.filter_cons]

theorem InvalidNamingCharactersCheck.naming_run_eq (s : Scene) :
    run s = (s,
      if badNodes s ≠ [] then
        { check_id := check_id, title := title, severity := severity
          message := "Found nodes with invalid characters in their names."
          nodes := pySorted (badNodes s), fixable := false }
      else
        { check_id := check_id, title := title, severity := "OK"
          message := "OK", nodes := [], fixable := false }) := by
  simp [run, hLs, naming_runLoop_spec, badNodes]

theorem FrameRangeHandlesCheck.keyTimesLoop_spec (s : Scene) (n : String) (as : List String) (acc : List ℚ) :
    keyTimesLoop s n as acc = (s, acc ++ listKeyTimesRaw s n as) := by
  induction as generalizing acc with
  | nil => simp [keyTimesLoop, listKeyTimesRaw]
  | cons a rest ih =>
    cases hk : s.keyTimesFn n a with
    | none => simp [keyTimesLoop, hKeyframeTimes, hk, ih, listKeyTimesRaw]
    | some ks => simp [keyTimesLoop, hKeyframeTimes, hk, ih, listKeyTimesRaw]

theorem FrameRangeHandlesCheck.listKeyTimesH_eq (s : Scene) (n : String) :
    listKeyTimesH s n = (s, listKeyTimes s n) := by
  simp [listKeyTimesH, keyTimesLoop_spec, listKeyTimes]

theorem FrameRangeHandlesCheck.camsLoop_spec (s : Scene) (shapes : List String) (cams : List String) :
    camsLoop s shapes cams =
      (s, cams ++ shapes.filterMap (fun camShape =>
        let parent := (s.parentsFn camShape).headD camShape
        if isDefaultMayaCamera parent then none else some parent)) := by
  induction shapes generalizing cams with
  | nil => simp [camsLoop]
  | cons camShape rest ih =>
    by_cases hdef : isDefaultMayaCamera ((s.parentsFn camShape).head?.getD camShape)
    · simp [camsLoop, hParents, hdef, ih, List.filterMap_cons]
    · simp [camsLoop, hParents, hdef, ih, List.filterMap_cons]

theorem FrameRangeHandlesCheck.missingLoop_spec (expMin expMax : ℚ) (s : Scene) (ts : List String)
    (acc : List String) :
    missingLoop expMin expMax s ts acc = (s, acc ++ missingNodes expMin expMax s ts) := by
  induction ts generalizing acc with
  | nil => simp [missingLoop, missingNodes]
  | cons n rest ih =>
    by_cases hex : s.objExistsFn n
    · by_cases hemp : (listKeyTimes s n).isEmpty
      · simp [missingLoop, hObjExists, hex, listKeyTimesH_eq, hemp, ih,
          missingNodes, List.filter_cons, missingFor]
      · simp [missingLoop, hObjExists, hex, listKeyTimesH_eq, hemp, ih,
          missingNodes, List.filter_cons, missingFor]
        split <;> rename_i hC <;> simp [hC]
    · simp [missingLoop, hObjExists, hex, ih, missingNodes, List.filter_cons]

theorem FrameRangeHandlesCheck.frameRange_run_eq (cfg : Config) (s : Scene) :
    run cfg s = (s,
      if problems cfg s ≠ [] ∨ missing cfg s ≠ [] then
        { check_id := check_id, title := title, severity := severity
          message := if problems cfg s ≠ [] then String.intercalate " / " (problems cfg s)
                     else "Missing handle keys on targets."
          nodes := pySortedSet (missing cfg s), fixable := false }
      else
        { check_id := check_id, title := title, severity := "OK"
          message := "OK", nodes := [], fixable := false }) := by
  by_cases hsel : s.selection.isEmpty
  · simp [run, hPlaybackMin, hPlaybackMax, hLsSelection, hLsType, hsel, camsLoop_spec,
      missingLoop_spec, problems, missing, targets, nonDefaultCamTransforms]
  · simp [run, hPlaybackMin, hPlaybackMax, hLsSelection, hLsType, hsel,
      missingLoop_spec, problems, missing, targets]

theorem CameraClippingPlanesCheck.clipping_runLoop_spec (cfg : Config) (s : Scene) (shapes : List String)
    (bad : List String) :
    runLoop cfg s shapes bad = (s, bad ++ shapes.filterMap (badOf cfg s)) := by
  induction shapes generalizing bad with
  | nil => simp [runLoop]
  | cons camShape rest ih =>
    by_cases hdef : isDefaultMayaCamera ((s.parentsFn camShape).head?.getD camShape)
    · simp [runLoop, hParents, hdef, ih, badOf, List.filterMap_cons]
    · cases hn : s.getAttrFn (camShape ++ ".nearClipPlane") with
      | none => simp [runLoop, hParents, hGetAttr, hdef, hn, ih, badOf, List.filterMap_cons]
      | some near =>
        cases hf : s.getAttrFn (camShape ++ ".farClipPlane") with
        | none =>
          simp [runLoop, hParents, hGetAttr, hdef, hn, hf, ih, badOf, List.filterMap_cons]
        | some far =>
          by_cases hrisk : near > cfg.near_max ∨ far < cfg.far_min
          · simp [runLoop, hParents, hGetAttr, hdef, hn, hf, hrisk, ih, badOf,
              List.filterMap_cons]
          · simp [runLoop, hParents, hGetAttr, hdef, hn, hf, hrisk, ih, badOf,
              List.filterMap_cons]

theorem CameraClippingPlanesCheck.clipping_run_eq (cfg : Config) (s : Scene) :
    run cfg s = (s,
      if badTransforms cfg s ≠ [] then
        { check_id := check_id, title := title, severity := severity
          message := "Some cameras have risky clipping planes (near > " ++
            toString cfg.near_max ++ " or far < " ++ toString cfg.far_min ++ ")."
          nodes := pySortedSet (badTransforms cfg s), fixable := false }
      else
        { check_id := check_id, title := title, severity := "OK"
          message := "OK", nodes := [], fixable := false }) := by
  simp [run, hLsType, clipping_runLoop_spec, badTransforms]

theorem lookupIssue_insertIssue_self (m : List (String × Issue)) (k : String) (v : Issue) :
    lookupIssue (insertIssue m k v) k = some v := by
  induction m with
  | nil => simp [insertIssue, lookupIssue]
  | cons kv rest ih =>
    obtain ⟨k0, v0⟩ := kv
    by_cases h : k0 = k
    · simp [insertIssue, lookupIssue, h]
    · simp [insertIssue, lookupIssue, h, ih]

theorem lookupIssue_insertIssue_other (m : List (String × Issue)) (k k₂ : String)
    (v : Issue) (h : k₂ ≠ k) :
    lookupIssue (insertIssue m k v) k₂ = lookupIssue m k₂ := by
  induction m with
  | nil => simp [insertIssue, lookupIssue, Ne.symm h]
  | cons kv rest ih =>
    obtain ⟨k0, v0⟩ := kv
    by_cases h0 : k0 = k
    · subst h0
      simp [insertIssue, lookupIssue, Ne.symm h]
    · simp [insertIssue, lookupIssue, h0, ih]

theorem rowOf_rowId (issue : Issue) : (rowOf issue).rowId = issue.check_id := by
  unfold rowOf
  split <;> rfl

theorem findRow_setRowForIssue (rows : List TableRow) (issue : Issue) (r : TableRow)
    (h : findRow rows issue.check_id = some r) :
    findRow (setRowForIssue rows issue) issue.check_id = some (rowOf issue) := by
  induction rows with
  | nil => simp [findRow] at h
  | cons r0 rest ih =>
    by_cases h0 : r0.rowId = issue.check_id
    · simp only [setRowForIssue, if_pos h0]
      unfold findRow
      rw [List.find?_cons_of_pos _ (by simp [rowOf_rowId])]
    · have hb : (r0.rowId == issue.check_id) = false := by simp [h0]
      unfold findRow at h ⊢
      simp only [setRowForIssue, if_neg h0]
      simp only [List.find?_cons, hb] at h ⊢
      exact ih h

theorem getCheck_check_id {cs : List HCheck} {cid : String} {c : HCheck}
    (h : getCheck cs cid = some c) : c.check_id = cid := by
  unfold getCheck at h
  have hb := List.find?_some h
  simpa using hb

theorem renderDetails_issues (st : UIState) (i : Option Issue) :
    (renderDetails st i).issues = st.issues := by
  cases i with
  | none => rfl
  | some issue =>
    by_cases h : issue.severity = "OK" <;> simp [renderDetails, h]

theorem renderDetails_log (st : UIState) (i : Option Issue) :
    (renderDetails st i).log = st.log := by
  cases i with
  | none => rfl
  | some issue =>
    by_cases h : issue.severity = "OK" <;> simp [renderDetails, h]

theorem onTableSelectionChanged_issues (st : UIState) :
    (onTableSelectionChanged st).issues = st.issues := by
  unfold onTableSelectionChanged
  cases st.currentCheckId <;> simp [renderDetails_issues]

theorem onTableSelectionChanged_log (st : UIState) :
    (onTableSelectionChanged st).log = st.log := by
  unfold onTableSelectionChanged
  cases st.currentCheckId <;> simp [renderDetails_log]

theorem runAllLoop_lookup_untouched (s : Scene) (st : UIState) (cs : List HCheck)
    (k : String) (hk : ∀ c ∈ cs, c.check_id ≠ k) :
    lookupIssue (runAllLoop s st cs).issues k = lookupIssue st.issues k := by
  induction cs generalizing st with
  | nil => rfl
  | cons c rest ih =>
    have h1 : c.check_id ≠ k := hk c (List.mem_cons_self c rest)
    simp only [runAllLoop]
    rw [ih _ (fun c2 h2 => hk c2 (List.mem_cons_of_mem c h2))]
    simp [runCheckH, addLog, lookupIssue_insertIssue_other _ _ _ _ (Ne.symm h1)]

theorem runAllLoop_lookup (s : Scene) (st : UIState) (cs : List HCheck)
    (hnd : (cs.map (fun c => c.check_id)).Nodup) (c : HCheck) (hc : c ∈ cs) :
    lookupIssue (runAllLoop s st cs).issues c.check_id = some (harnessIssue c s) := by
  induction cs generalizing st with
  | nil => cases hc
  | cons c0 rest ih =>
    rcases List.mem_cons.mp hc with rfl | hc2
    · have hnot : ∀ c2 ∈ rest, c2.check_id ≠ c.check_id := by
        intro c2 h2 he
        apply (List.nodup_cons.mp hnd).1
        show c.check_id ∈ List.map (fun c2 => c2.check_id) rest
        rw [← he]
        exact List.mem_map_of_mem _ h2
      simp only [runAllLoop]
      rw [runAllLoop_lookup_untouched s _ rest c.check_id hnot]
      simp [runCheckH, addLog, lookupIssue_insertIssue_self]
    · exact ih _ (List.nodup_cons.mp hnd).2 hc2

theorem runAllLoop_log (s : Scene) (st : UIState) (cs : List HCheck) :
    (runAllLoop s st cs).log =
      st.log ++ cs.map (fun c => runAllLogLine c (harnessIssue c s)) := by
  induction cs generalizing st with
  | nil => simp [runAllLoop]
  | cons c rest ih => simp [runAllLoop, runCheckH, addLog, ih]

theorem runAllLoop_checks (s : Scene) (st : UIState) (cs : List HCheck) :
    (runAllLoop s st cs).checks = st.checks := by
  induction cs generalizing st with
  | nil => rfl
  | cons c rest ih => simp [runAllLoop, runCheckH, addLog, ih]

theorem runAllLogLine_error (c : HCheck) (issue : Issue)
    (hsev : issue.severity = "ERROR") (hnodes : issue.nodes = []) :
    runAllLogLine c issue = "ERROR: " ++ c.title ++ " — 0 item(s)" := by
  unfold runAllLogLine
  rw [hsev, hnodes]
  rw [if_neg (by decide : ¬ ("ERROR" = "OK"))]
  apply String.ext
  have h0 : (toString (0 : Nat)).data = ['0'] := rfl
  simp [String.data_append, h0]

/-- Counterexample to C1 as stated: with the single check `errCheck`, whose
`run()` raises `EXC-42`, the stored issue's message carries the failure text
`Check failed: EXC-42`, but after `_on_run_all` no line of the UI log
contains the failure text `EXC-42` at all - the log only records
`ERROR: Err Check — 0 item(s)`.  The failure message is surfaced in the
details pane, not in the log. -/
theorem run_all_log_lacks_failure_text :
    (lookupIssue (onRunAll errState emptyScene).issues "err_check").map Issue.message =
      some "Check failed: EXC-42" ∧
    (onRunAll errState emptyScene).log =
      ["Running all checks…", "ERROR: Err Check — 0 item(s)", "Done.\n"] ∧
    ((onRunAll errState emptyScene).log.all
      (fun line => !(decide ("EXC-42".data <:+: line.data)))) = true := by
  refine ⟨rfl, rfl, by decide⟩

/-- C1 (amended): if a check's `run()` raises with text `e`, `_run_check`
does not propagate the exception: it stores, under the check's id, an
`Issue` with severity `ERROR`, message `Check failed: e` and an empty node
list; `_on_run_all` still processes every check (each check's issue is
stored, and one log line is appended per check); the log line recorded for
the failed check is `ERROR: <title> — 0 item(s)` - the failure text itself
appears in the issue message (shown in the details pane), not in the log. -/
theorem runCheck_catches_and_runAll_continues
    (st : UIState) (c : HCheck) (s : Scene) (e : String)
    (hrun : c.run s = .error e) :
    (runCheckH st c s).2.severity = "ERROR" ∧
    (runCheckH st c s).2.message = "Check failed: " ++ e ∧
    (runCheckH st c s).2.nodes = [] ∧
    lookupIssue (runCheckH st c s).1.issues c.check_id = some (runCheckH st c s).2 ∧
    runAllLogLine c (harnessIssue c s) = "ERROR: " ++ c.title ++ " — 0 item(s)" ∧
    (onRunAll st s).log = st.log ++ ["Running all checks…"] ++
      st.checks.map (fun c2 => runAllLogLine c2 (harnessIssue c2 s)) ++ ["Done.\n"] ∧
    ((st.checks.map (fun c2 => c2.check_id)).Nodup →
      ∀ c2 ∈ st.checks,
        lookupIssue (onRunAll st s).issues c2.check_id = some (harnessIssue c2 s)) := by
  have hi : harnessIssue c s =
      { check_id := c.check_id, title := c.title, severity := "ERROR"
        message := "Check failed: " ++ e, nodes := [], fixable := false } := by
    simp [harnessIssue, hrun]
  refine ⟨?_, ?_, ?_, ?_, ?_, ?_, ?_⟩
  · show (harnessIssue c s).severity = "ERROR"
    rw [hi]
  · show (harnessIssue c s).message = "Check failed: " ++ e
    rw [hi]
  · show (harnessIssue c s).nodes = []
    rw [hi]
  · simp [runCheckH, lookupIssue_insertIssue_self]
  · exact runAllLogLine_error c _ (by rw [hi]) (by rw [hi])
  · unfold onRunAll
    rw [onTableSelectionChanged_log]
    show ((addLog (runAllLoop s (addLog st "Running all checks…")
      (addLog st "Running all checks…").checks) "Done.\n").log) = _
    rw [show (addLog st "Running all checks…").checks = st.checks from rfl]
    rw [show ∀ st2 : UIState, (addLog st2 "Done.\n").log = st2.log ++ ["Done.\n"]
      from fun _ => rfl]
    rw [runAllLoop_log]
    simp [addLog]
  · intro hnd c2 hc2
    unfold onRunAll
    rw [onTableSelectionChanged_issues]
    show lookupIssue (addLog (runAllLoop s (addLog st "Running all checks…")
      (addLog st "Running all checks…").checks) "Done.\n").issues c2.check_id = _
    rw [show (addLog st "Running all checks…").checks = st.checks from rfl]
    rw [show ∀ st2 : UIState, (addLog st2 "Done.\n").issues = st2.issues
      from fun _ => rfl]
    exact runAllLoop_lookup s _ st.checks hnd c2 hc2

/-- Witness for the amended C1 at a concrete input: the single check of
`errState` raises, its stored issue is the synthesized ERROR issue, and the
run-all pass still stored an issue for it. -/
theorem runCheck_catches_witness :
    (runCheckH errState errCheck emptyScene).2.severity = "ERROR" ∧
    (runCheckH errState errCheck emptyScene).2.nodes = [] ∧
    lookupIssue (onRunAll errState emptyScene).issues "err_check" =
      some (harnessIssue errCheck emptyScene) := by
  have h := runCheck_catches_and_runAll_continues errState errCheck emptyScene
    "EXC-42" rfl
  refine ⟨h.1, h.2.2.1, ?_⟩
  exact h.2.2.2.2.2.2 (by decide) errCheck (List.mem_singleton_self errCheck)

theorem renderDetails_rows (st : UIState) (i : Option Issue) :
    (renderDetails st i).rows = st.rows := by
  cases i with
  | none => rfl
  | some issue =>
    by_cases h : issue.severity = "OK" <;> simp [renderDetails, h]

theorem renderDetails_statusText (st : UIState) (i : Option Issue) :
    (renderDetails st i).statusText = st.statusText := by
  cases i with
  | none => rfl
  | some issue =>
    by_cases h : issue.severity = "OK" <;> simp [renderDetails, h]

/-- C2: when Fix Selected passes its guards (a selected check, a stored
issue that is fixable with a non-empty node list) and the fix returns
normally with post-fix scene `s2`, the check's `run()` is executed again
against `s2`, and the stored issue, the check's table row, the header
status text and the details pane all show that fresh result
`harnessIssue c s2`, not the pre-fix issue.  (`hid` records that the
re-run issue carries the check's own id, as every check in this code base
does.) -/
theorem onFixSelected_rereads
    (st : UIState) (s : Scene) (cid : String) (c : HCheck) (issue : Issue)
    (s2 : Scene) (changed : Bool) (r0 : TableRow)
    (hcur : st.currentCheckId = some cid)
    (hget : getCheck st.checks cid = some c)
    (hiss : lookupIssue st.issues cid = some issue)
    (hfixable : issue.fixable = true)
    (hnodes : issue.nodes ≠ [])
    (hfix : c.fix s issue = Except.ok (s2, changed))
    (hrow : findRow st.rows cid = some r0)
    (hid : (harnessIssue c s2).check_id = cid) :
    (onFixSelected st s).2 = s2 ∧
    lookupIssue (onFixSelected st s).1.issues cid = some (harnessIssue c s2) ∧
    findRow (onFixSelected st s).1.rows cid = some (rowOf (harnessIssue c s2)) ∧
    (onFixSelected st s).1.statusText =
      headerText (insertIssue st.issues cid (harnessIssue c s2)) st.checks ∧
    (onFixSelected st s).1.detailMsg =
      (if (harnessIssue c s2).severity = "OK" then "✅ OK"
       else (if (harnessIssue c s2).severity = "ERROR" then "⛔" else "⚠️") ++ " " ++
         (harnessIssue c s2).severity ++ ": " ++ (harnessIssue c s2).message) ∧
    (onFixSelected st s).1.detailNodes =
      (if (harnessIssue c s2).severity = "OK" then [] else (harnessIssue c s2).nodes) := by
  have hcid : c.check_id = cid := getCheck_check_id hget
  have hne : issue.nodes.isEmpty = false := by
    cases hn : issue.nodes with
    | nil => exact absurd hn hnodes
    | cons a l => rfl
  have hguard : (issue.fixable && !issue.nodes.isEmpty) = true := by
    rw [hfixable, hne]
    rfl
  have hres : onFixSelected st s =
      (renderDetails (refreshHeader
        ((runCheckH (addLog (addLog st ("Fixing: " ++ c.title ++ " …"))
          (if changed then "Fix applied.\n" else "No changes made.\n")) c s2).1))
        (some (harnessIssue c s2)), s2) := by
    unfold onFixSelected
    rw [hcur]
    simp only [hget, hiss]
    rw [if_pos hguard]
    simp only [hfix]
    rfl
  rw [hres]
  refine ⟨rfl, ?_, ?_, ?_, ?_, ?_⟩
  · rw [show (renderDetails (refreshHeader ((runCheckH (addLog (addLog st
        ("Fixing: " ++ c.title ++ " …"))
        (if changed then "Fix applied.\n" else "No changes made.\n")) c s2).1))
        (some (harnessIssue c s2)), s2).1.issues =
      insertIssue st.issues c.check_id (harnessIssue c s2) by
        rw [renderDetails_issues]
        rfl]
    rw [hcid]
    exact lookupIssue_insertIssue_self _ _ _
  · rw [show (renderDetails (refreshHeader ((runCheckH (addLog (addLog st
        ("Fixing: " ++ c.title ++ " …"))
        (if changed then "Fix applied.\n" else "No changes made.\n")) c s2).1))
        (some (harnessIssue c s2)), s2).1.rows =
      setRowForIssue st.rows (harnessIssue c s2) by
        rw [renderDetails_rows]
        rfl]
    rw [← hid]
    exact findRow_setRowForIssue st.rows (harnessIssue c s2) r0 (hid ▸ hrow)
  · rw [show (renderDetails (refreshHeader ((runCheckH (addLog (addLog st
        ("Fixing: " ++ c.title ++ " …"))
        (if changed then "Fix applied.\n" else "No changes made.\n")) c s2).1))
        (some (harnessIssue c s2)), s2).1.statusText =
      headerText (insertIssue st.issues c.check_id (harnessIssue c s2)) st.checks by
        rw [renderDetails_statusText]
        rfl]
    rw [hcid]
  · by_cases hsev : (harnessIssue c s2).severity = "OK" <;>
      simp [renderDetails, hsev]
  · by_cases hsev : (harnessIssue c s2).severity = "OK" <;>
      simp [renderDetails, hsev]

/-- Witness for C2 at a concrete input: after Fix Selected on the toy
check, the stored issue, details pane and table row show the fresh OK
re-run result instead of the pre-fix WARN issue. -/
theorem onFixSelected_rereads_witness :
    lookupIssue ((onFixSelected toyState toyScene).1).issues "toy" =
      some (harnessIssue toyCheck (toyScene.deleteNode "n1")) ∧
    ((onFixSelected toyState toyScene).1).detailMsg = "✅ OK" ∧
    findRow ((onFixSelected toyState toyScene).1).rows "toy" =
      some ⟨"toy", "OK", "0", "Yes"⟩ := by
  have h := onFixSelected_rereads toyState toyScene "toy" toyCheck toyBadIssue
    (toyScene.deleteNode "n1") true ⟨"toy", "WARN", "1", "Yes"⟩
    rfl rfl rfl rfl (by decide) rfl rfl rfl
  refine ⟨h.2.1, ?_, ?_⟩
  · rw [h.2.2.2.2.1]
    rfl
  · rw [h.2.2.1]
    rfl

theorem missingFor_false_iff (e1 e2 : ℚ) (s : Scene) (n : String) :
    FrameRangeHandlesCheck.missingFor e1 e2 s n = false ↔
      ((∃ t ∈ FrameRangeHandlesCheck.listKeyTimes s n, |t - e1| < 1/1000) ∧
       (∃ t ∈ FrameRangeHandlesCheck.listKeyTimes s n, |t - e2| < 1/1000)) := by
  simp only [FrameRangeHandlesCheck.missingFor]
  constructor
  · intro h
    simp only [Bool.or_eq_false_iff, Bool.not_eq_false', Bool.and_eq_true,
      List.any_eq_true, decide_eq_true_eq] at h
    exact ⟨h.2.1, h.2.2⟩
  · rintro ⟨⟨t1, ht1, h1⟩, ⟨t2, ht2, h2⟩⟩
    have hne : (FrameRangeHandlesCheck.listKeyTimes s n).isEmpty = false := by
      cases hl : FrameRangeHandlesCheck.listKeyTimes s n with
      | nil => rw [hl] at ht1; cases ht1
      | cons a l => rfl
    simp only [hne, Bool.false_or, Bool.not_eq_false', Bool.and_eq_true,
      List.any_eq_true, decide_eq_true_eq]
    exact ⟨⟨t1, ht1, h1⟩, ⟨t2, ht2, h2⟩⟩

theorem problems_eq_nil_iff (cfg : FrameRangeHandlesCheck.Config) (s : Scene) :
    FrameRangeHandlesCheck.problems cfg s = [] ↔
      (ratTrunc s.playbackMin = cfg.shot_start - cfg.handle ∧
       ratTrunc s.playbackMax = cfg.shot_end + cfg.handle) := by
  simp only [FrameRangeHandlesCheck.problems]
  split <;> rename_i h
  · constructor
    · intro hx
      exact absurd hx (by simp)
    · intro hrhs
      rcases h with h | h
      · exact absurd hrhs.1 h
      · exact absurd hrhs.2 h
  · push_neg at h
    simp [h.1, h.2]

theorem missing_eq_nil_iff (cfg : FrameRangeHandlesCheck.Config) (s : Scene) :
    FrameRangeHandlesCheck.missing cfg s = [] ↔
      ∀ n ∈ FrameRangeHandlesCheck.targets s, s.objExistsFn n = true →
        ((∃ t ∈ FrameRangeHandlesCheck.listKeyTimes s n,
            |t - ((cfg.shot_start - cfg.handle : Int) : ℚ)| < 1/1000) ∧
         (∃ t ∈ FrameRangeHandlesCheck.listKeyTimes s n,
            |t - ((cfg.shot_end + cfg.handle : Int) : ℚ)| < 1/1000)) := by
  unfold FrameRangeHandlesCheck.missing FrameRangeHandlesCheck.missingNodes
  rw [List.filter_eq_nil_iff]
  constructor
  · intro h n hn hex
    rw [← missingFor_false_iff]
    cases hb : FrameRangeHandlesCheck.missingFor
        ((cfg.shot_start - cfg.handle : Int) : ℚ) ((cfg.shot_end + cfg.handle : Int) : ℚ) s n
    · rfl
    · refine absurd ?_ (h n hn)
      rw [hex, hb]
      rfl
  · intro h n hn hcontra
    rw [Bool.and_eq_true] at hcontra
    obtain ⟨hex, hm⟩ := hcontra
    have hfalse := (missingFor_false_iff _ _ s n).mpr (h n hn hex)
    rw [hfalse] at hm
    cases hm

/-- C3: `FrameRangeHandlesCheck.run` returns an issue of severity `OK` iff
the playback range, truncated to integers, equals
`shot_start - handle .. shot_end + handle`, and every target (the selection
if non-empty, else the non-default camera transforms) that exists has at
least one key time within `0.001` of each of the two handle frames across
the six translate/rotate attributes; a target with no keys at all fails the
existential and is counted as missing. -/
theorem frameRange_ok_iff (cfg : FrameRangeHandlesCheck.Config) (s : Scene) :
    (FrameRangeHandlesCheck.run cfg s).2.severity = "OK" ↔
      (ratTrunc s.playbackMin = cfg.shot_start - cfg.handle ∧
       ratTrunc s.playbackMax = cfg.shot_end + cfg.handle ∧
       ∀ n ∈ FrameRangeHandlesCheck.targets s, s.objExistsFn n = true →
         ((∃ t ∈ FrameRangeHandlesCheck.listKeyTimes s n,
             |t - ((cfg.shot_start - cfg.handle : Int) : ℚ)| < 1/1000) ∧
          (∃ t ∈ FrameRangeHandlesCheck.listKeyTimes s n,
             |t - ((cfg.shot_end + cfg.handle : Int) : ℚ)| < 1/1000))) := by
  rw [FrameRangeHandlesCheck.frameRange_run_eq]
  by_cases hcond : (FrameRangeHandlesCheck.problems cfg s ≠ [] ∨
      FrameRangeHandlesCheck.missing cfg s ≠ [])
  · rw [if_pos hcond]
    constructor
    · intro hsev
      exact absurd hsev (by decide : ¬ (("WARN" : String) = "OK"))
    · rintro ⟨h1, h2, h3⟩
      exfalso
      rcases hcond with hc | hc
      · exact hc ((problems_eq_nil_iff cfg s).mpr ⟨h1, h2⟩)
      · exact hc ((missing_eq_nil_iff cfg s).mpr h3)
  · rw [if_neg hcond]
    push_neg at hcond
    constructor
    · intro _
      obtain ⟨hp, hm⟩ := hcond
      obtain ⟨h1, h2⟩ := (problems_eq_nil_iff cfg s).mp hp
      exact ⟨h1, h2, (missing_eq_nil_iff cfg s).mp hm⟩
    · intro _
      rfl

/-- Witness for C3 at a concrete input: the default configuration accepts
`frScene`. -/
theorem frameRange_ok_iff_witness :
    (FrameRangeHandlesCheck.run frCfg frScene).2.severity = "OK" := by
  apply (frameRange_ok_iff frCfg frScene).mpr
  refine ⟨by decide, by decide, ?_⟩
  intro n hn hex
  have hn2 : n = "ctrl" := by
    simpa [FrameRangeHandlesCheck.targets, frScene, emptyScene] using hn
  subst hn2
  have h96 : (96 : ℚ) ∈ FrameRangeHandlesCheck.listKeyTimes frScene "ctrl" := by decide
  have h136 : (136 : ℚ) ∈ FrameRangeHandlesCheck.listKeyTimes frScene "ctrl" := by decide
  constructor
  · exact ⟨96, h96, by norm_num [frCfg]⟩
  · exact ⟨136, h136, by norm_num [frCfg]⟩

/-- On a nonempty newline-free string the pattern
`^[a-z0-9_|:]+$` (IGNORECASE) matches exactly when every character is in
the class. -/
theorem patternSearch_eq_all (short : String) (hne : short ≠ "")
    (hnl : ∀ c ∈ short.data, c ≠ '\n') :
    InvalidNamingCharactersCheck.patternSearch short =
      short.data.all InvalidNamingCharactersCheck.inClass := by
  simp only [InvalidNamingCharactersCheck.patternSearch]
  have hd : short.data ≠ [] := by
    intro h
    exact hne (String.ext (by simp [h]))
  have h2 : (short.data.getLast? == some '\n') = false := by
    cases hl : short.data.getLast? with
    | none => rfl
    | some c =>
      have hc : c ∈ short.data := List.mem_of_mem_getLast? hl
      simp [hnl c hc]
  have h1 : short.data.isEmpty = false := by
    cases hld : short.data with
    | nil => exact absurd hld hd
    | cons a l => rfl
  rw [h2, h1]
  simp

/-- Membership in the issue's node list is membership in the raw bad-node
list, in both branches of the run. -/
theorem invalidNaming_run_nodes_mem (s : Scene) (n : String) :
    n ∈ (InvalidNamingCharactersCheck.run s).2.nodes ↔
      n ∈ InvalidNamingCharactersCheck.badNodes s := by
  rw [InvalidNamingCharactersCheck.naming_run_eq]
  by_cases h : InvalidNamingCharactersCheck.badNodes s = []
  · simp [h]
  · simp [h, mem_pySorted]

/-- C4: `InvalidNamingCharactersCheck.run` reports exactly the listed nodes
whose short name has a character outside `[a-zA-Z0-9_|:]`, except nodes of
type `imagePlane`; the reported list is sorted; and the severity is `OK`
exactly when no node is reported (with an empty node list).  The
`mayaNameWF` hypothesis records what Maya guarantees of listed node names
(nonempty, ASCII, newline-free), on which the regex model is exact. -/
theorem invalidNaming_spec (s : Scene)
    (hwf : ∀ n ∈ s.allNodes, mayaNameWF (shortName n)) :
    (∀ n, n ∈ (InvalidNamingCharactersCheck.run s).2.nodes ↔
      (n ∈ s.allNodes ∧
       (∃ c ∈ (shortName n).data, InvalidNamingCharactersCheck.inClass c = false) ∧
       s.nodeTypeFn n ≠ some "imagePlane")) ∧
    List.Sorted (fun a b => a ≤ b) (InvalidNamingCharactersCheck.run s).2.nodes ∧
    ((InvalidNamingCharactersCheck.run s).2.severity = "OK" ↔
      (InvalidNamingCharactersCheck.run s).2.nodes = []) := by
  refine ⟨?_, ?_, ?_⟩
  · intro n
    rw [invalidNaming_run_nodes_mem]
    unfold InvalidNamingCharactersCheck.badNodes
    rw [List.mem_filter]
    constructor
    · rintro ⟨hmem, hbad⟩
      obtain ⟨hne, hrest⟩ := hwf n hmem
      simp only [InvalidNamingCharactersCheck.isBad, Bool.and_eq_true,
        Bool.not_eq_true', beq_eq_false_iff_ne, ne_eq] at hbad
      rw [patternSearch_eq_all _ hne (fun c hc => (hrest c hc).2)] at hbad
      obtain ⟨hall, htype⟩ := hbad
      refine ⟨hmem, ?_, htype⟩
      by_contra hno
      push_neg at hno
      have : (shortName n).data.all InvalidNamingCharactersCheck.inClass = true := by
        rw [List.all_eq_true]
        intro c hc
        cases hcl : InvalidNamingCharactersCheck.inClass c with
        | false => exact absurd hcl (hno c hc)
        | true => rfl
      rw [this] at hall
      cases hall
    · rintro ⟨hmem, ⟨c, hc, hcl⟩, htype⟩
      obtain ⟨hne, hrest⟩ := hwf n hmem
      refine ⟨hmem, ?_⟩
      simp only [InvalidNamingCharactersCheck.isBad, Bool.and_eq_true,
        Bool.not_eq_true', beq_eq_false_iff_ne, ne_eq]
      rw [patternSearch_eq_all _ hne (fun c2 hc2 => (hrest c2 hc2).2)]
      refine ⟨?_, htype⟩
      cases hall : (shortName n).data.all InvalidNamingCharactersCheck.inClass with
      | false => rfl
      | true =>
        rw [List.all_eq_true] at hall
        rw [hall c hc] at hcl
        cases hcl
  · rw [InvalidNamingCharactersCheck.naming_run_eq]
    by_cases h : InvalidNamingCharactersCheck.badNodes s = []
    · simp [h, List.Sorted]
    · simp only [h, ne_eq, not_false_iff, if_true]
      exact pySorted_sorted _
  · rw [InvalidNamingCharactersCheck.naming_run_eq]
    by_cases h : InvalidNamingCharactersCheck.badNodes s = []
    · simp [h]
    · have hnodes : pySorted (InvalidNamingCharactersCheck.badNodes s) ≠ [] := by
        obtain ⟨x, hx⟩ := List.exists_mem_of_ne_nil _ h
        intro hcon
        rw [← mem_pySorted (l := InvalidNamingCharactersCheck.badNodes s)] at hx
        rw [hcon] at hx
        cases hx
      simp only [h, ne_eq, not_false_iff, if_true]
      constructor
      · intro hsev
        exact absurd hsev (by decide : ¬ (("WARN" : String) = "OK"))
      · intro hn
        exact absurd hn hnodes

/-- Witness for C4 at a concrete input: the `#`-named node is reported. -/
theorem invalidNaming_spec_witness :
    "bad#name" ∈ (InvalidNamingCharactersCheck.run namingScene).2.nodes := by
  exact ((invalidNaming_spec namingScene (by decide)).1 "bad#name").mpr (by decide)

theorem clipping_badOf_eq_some (cfg : CameraClippingPlanesCheck.Config) (s : Scene)
    (camShape n : String) :
    CameraClippingPlanesCheck.badOf cfg s camShape = some n ↔
      ((s.parentsFn camShape).headD camShape = n ∧
       isDefaultMayaCamera n = false ∧
       ∃ near far, s.getAttrFn (camShape ++ ".nearClipPlane") = some near ∧
         s.getAttrFn (camShape ++ ".farClipPlane") = some far ∧
         (near > cfg.near_max ∨ far < cfg.far_min)) := by
  simp only [CameraClippingPlanesCheck.badOf]
  by_cases hdef : isDefaultMayaCamera ((s.parentsFn camShape).headD camShape)
  · rw [if_pos hdef]
    constructor
    · intro h
      cases h
    · rintro ⟨rfl, hnd, _⟩
      rw [hdef] at hnd
      cases hnd
  · rw [if_neg hdef]
    cases hn : s.getAttrFn (camShape ++ ".nearClipPlane") with
    | none =>
      constructor
      · intro h
        cases h
      · rintro ⟨rfl, hnd, near, far, hnear, hfar, hrisk⟩
        cases hnear
    | some near =>
      cases hf : s.getAttrFn (camShape ++ ".farClipPlane") with
      | none =>
        constructor
        · intro h
          cases h
        · rintro ⟨rfl, hnd, near2, far2, hnear, hfar, hrisk⟩
          cases hfar
      | some far =>
        show (if near > cfg.near_max ∨ far < cfg.far_min then
            some ((s.parentsFn camShape).headD camShape) else none) = some n ↔ _
        by_cases hrisk : (near > cfg.near_max ∨ far < cfg.far_min)
        · rw [if_pos hrisk]
          constructor
          · intro h
            injection h with h
            subst h
            exact ⟨rfl, Bool.eq_false_iff.mpr hdef, near, far, rfl, rfl, hrisk⟩
          · rintro ⟨rfl, hnd, _⟩
            rfl
        · rw [if_neg hrisk]
          constructor
          · intro h
            cases h
          · rintro ⟨rfl, hnd, near2, far2, hnear, hfar, hrisk2⟩
            injection hnear with hnear
            injection hfar with hfar
            subst hnear
            subst hfar
            exact absurd hrisk2 hrisk

/-- C5: `CameraClippingPlanesCheck.run` reports exactly the non-default
camera transforms whose shape's clip attributes both read successfully and
violate `near ≤ near_max` or `far ≥ far_min`; a camera whose clip
attributes cannot be read is skipped (it cannot satisfy the right-hand
side), and the reported list is sorted and duplicate-free. -/
theorem cameraClipping_spec (cfg : CameraClippingPlanesCheck.Config) (s : Scene) :
    (∀ n, n ∈ (CameraClippingPlanesCheck.run cfg s).2.nodes ↔
      ∃ camShape ∈ lsType "camera" s,
        ((s.parentsFn camShape).headD camShape = n ∧
         isDefaultMayaCamera n = false ∧
         ∃ near far, s.getAttrFn (camShape ++ ".nearClipPlane") = some near ∧
           s.getAttrFn (camShape ++ ".farClipPlane") = some far ∧
           (near > cfg.near_max ∨ far < cfg.far_min))) ∧
    List.Sorted (fun a b => a ≤ b) (CameraClippingPlanesCheck.run cfg s).2.nodes ∧
    (CameraClippingPlanesCheck.run cfg s).2.nodes.Nodup := by
  refine ⟨?_, ?_, ?_⟩
  · intro n
    have hmem : n ∈ (CameraClippingPlanesCheck.run cfg s).2.nodes ↔
        n ∈ CameraClippingPlanesCheck.badTransforms cfg s := by
      rw [CameraClippingPlanesCheck.clipping_run_eq]
      by_cases h : CameraClippingPlanesCheck.badTransforms cfg s = []
      · simp [h]
      · simp [h, mem_pySortedSet]
    rw [hmem]
    unfold CameraClippingPlanesCheck.badTransforms
    rw [List.mem_filterMap]
    constructor
    · rintro ⟨camShape, hsh, hbad⟩
      exact ⟨camShape, hsh, (clipping_badOf_eq_some cfg s camShape n).mp hbad⟩
    · rintro ⟨camShape, hsh, hprop⟩
      exact ⟨camShape, hsh, (clipping_badOf_eq_some cfg s camShape n).mpr hprop⟩
  · rw [CameraClippingPlanesCheck.clipping_run_eq]
    by_cases h : CameraClippingPlanesCheck.badTransforms cfg s = []
    · simp [h, List.Sorted]
    · simp only [h, ne_eq, not_false_iff, if_true]
      exact pySortedSet_sorted _
  · rw [CameraClippingPlanesCheck.clipping_run_eq]
    by_cases h : CameraClippingPlanesCheck.badTransforms cfg s = []
    · simp [h]
    · simp only [h, ne_eq, not_false_iff, if_true]
      exact pySortedSet_nodup _

/-- Witness for C5 at a concrete input: `cam1` (near clip `5 > 1`) is
reported. -/
theorem cameraClipping_spec_witness :
    "cam1" ∈ (CameraClippingPlanesCheck.run clipCfg clipScene).2.nodes := by
  refine ((cameraClipping_spec clipCfg clipScene).1 "cam1").mpr ?_
  refine ⟨"cam1Shape", by decide, by decide, by decide, 5, 10000, rfl, rfl, ?_⟩
  exact Or.inl (by norm_num [clipCfg])

/-- C6: `CameraImagePlaneCheck.fix` returns `true` iff it actually deleted
at least one node; every node it deletes is an image plane connected (in
the pre-fix scene) to the camera shape of one of the issue's reported
transforms; and every node it did not delete keeps its listing, its node
type and its existence - the fix touches nothing else.  Deletions that
raise are skipped (they extend neither the deleted list nor the scene
change) rather than failing the fix. -/
theorem cameraImagePlaneFix_spec (s : Scene) (issue : Issue) :
    ((CameraImagePlaneCheck.fix s issue).2 = true ↔
      CameraImagePlaneCheck.fixDeleted s issue ≠ []) ∧
    (∀ p ∈ CameraImagePlaneCheck.fixDeleted s issue,
      ∃ camTr ∈ issue.nodes, ∃ sh ∈ s.shapesFn camTr,
        s.nodeTypeFn sh = some "camera" ∧ p ∈ s.imagePlaneConnFn sh) ∧
    (∀ n, n ∉ CameraImagePlaneCheck.fixDeleted s issue →
      ((n ∈ (CameraImagePlaneCheck.fix s issue).1.allNodes ↔ n ∈ s.allNodes) ∧
       (CameraImagePlaneCheck.fix s issue).1.nodeTypeFn n = s.nodeTypeFn n ∧
       (CameraImagePlaneCheck.fix s issue).1.objExistsFn n = s.objExistsFn n)) := by
  refine ⟨?_, ?_, ?_⟩
  · rw [CameraImagePlaneCheck.fix_eq_trace]
    show (!(CameraImagePlaneCheck.fixDeleted s issue).isEmpty) = true ↔ _
    constructor
    · intro h hnil
      rw [hnil] at h
      cases h
    · intro h
      cases hl : CameraImagePlaneCheck.fixDeleted s issue with
      | nil => exact absurd hl h
      | cons a l => rfl
  · intro p hp
    exact fixTrace_provenance s s issue.nodes (Scene.Sub.rfl s) p hp
  · intro n hn
    have hu := fixTrace_untouchedAt s issue.nodes n hn
    rw [CameraImagePlaneCheck.fix_eq_trace]
    exact ⟨hu.1, hu.2.1, hu.2.2⟩

/-- Witness for C6 at a concrete input: the fix deletes `ip1`, reports a
change, and leaves the bystander node untouched. -/
theorem cameraImagePlaneFix_spec_witness :
    (CameraImagePlaneCheck.fix fixScene ipIssue).2 = true ∧
    (CameraImagePlaneCheck.fix fixScene ipIssue).1.objExistsFn "bystander" =
      fixScene.objExistsFn "bystander" ∧
    CameraImagePlaneCheck.fixDeleted fixScene ipIssue = ["ip1"] := by
  have h := cameraImagePlaneFix_spec fixScene ipIssue
  exact ⟨h.1.mpr (by decide), (h.2.2 "bystander" (by decide)).2.2, by decide⟩

theorem mayaVersion_run_eq (cfg : MayaVersionCheck.Config) (s : Scene) :
    MayaVersionCheck.run cfg s = (s,
      if firstTokenMajor s.version ≠ some cfg.required_major then
        { check_id := MayaVersionCheck.check_id, title := MayaVersionCheck.title
          severity := MayaVersionCheck.severity
          message := "Running Maya " ++ s.version ++ ". Recommended: Maya " ++
            toString cfg.required_major ++ "."
          nodes := [], fixable := false }
      else
        { check_id := MayaVersionCheck.check_id, title := MayaVersionCheck.title
          severity := "OK", message := "OK", nodes := [], fixable := false }) := rfl

/-- C7: every default check's `run` leaves the host scene exactly as it
found it (each threaded host call is a query), and therefore running it a
second time on the resulting scene returns an equal issue. -/
theorem defaultChecks_run_readonly (c : CheckObj) (hc : c ∈ defaultChecks) (s : Scene) :
    (c.run s).1 = s ∧ (c.run ((c.run s).1)).2 = (c.run s).2 := by
  have hfst : (c.run s).1 = s := by
    rcases (by simpa [defaultChecks] using hc) with rfl | rfl | rfl | rfl | rfl
    · show (CameraImagePlaneCheck.run s).1 = s
      rw [CameraImagePlaneCheck.imagePlane_run_eq]
    · show (InvalidNamingCharactersCheck.run s).1 = s
      rw [InvalidNamingCharactersCheck.naming_run_eq]
    · show (MayaVersionCheck.run { required_major := 2025 } s).1 = s
      rw [mayaVersion_run_eq]
    · show (FrameRangeHandlesCheck.run
        { shot_start := 101, shot_end := 131, handle := 5 } s).1 = s
      rw [FrameRangeHandlesCheck.frameRange_run_eq]
    · show (CameraClippingPlanesCheck.run { near_max := 1, far_min := 5000 } s).1 = s
      rw [CameraClippingPlanesCheck.clipping_run_eq]
  exact ⟨hfst, by rw [hfst]⟩

/-- Witness for C7 at a concrete input: the image-plane check leaves the
demo fix scene untouched. -/
theorem defaultChecks_run_readonly_witness :
    (cameraImagePlaneObj.run fixScene).1 = fixScene :=
  (defaultChecks_run_readonly cameraImagePlaneObj (List.mem_cons_self _ _) fixScene).1

/-- C8: every issue produced by a default check's `run` has severity `OK`,
`WARN` or `ERROR`, and an `OK` issue always carries an empty node list. -/
theorem defaultChecks_severity_invariant (c : CheckObj) (hc : c ∈ defaultChecks)
    (s : Scene) :
    ((c.run s).2.severity = "OK" ∨ (c.run s).2.severity = "WARN" ∨
     (c.run s).2.severity = "ERROR") ∧
    ((c.run s).2.severity = "OK" → (c.run s).2.nodes = []) := by
  rcases (by simpa [defaultChecks] using hc) with rfl | rfl | rfl | rfl | rfl
  · rw [show cameraImagePlaneObj.run = CameraImagePlaneCheck.run from rfl]
    rw [CameraImagePlaneCheck.imagePlane_run_eq]
    by_cases h : CameraImagePlaneCheck.badTransforms s ≠ []
    · rw [if_pos h]
      exact ⟨Or.inr (Or.inr rfl),
        fun hx => absurd hx (by decide : ¬ (("ERROR" : String) = "OK"))⟩
    · rw [if_neg h]
      exact ⟨Or.inl rfl, fun _ => rfl⟩
  · rw [show invalidNamingObj.run = InvalidNamingCharactersCheck.run from rfl]
    rw [InvalidNamingCharactersCheck.naming_run_eq]
    by_cases h : InvalidNamingCharactersCheck.badNodes s ≠ []
    · rw [if_pos h]
      exact ⟨Or.inr (Or.inl rfl),
        fun hx => absurd hx (by decide : ¬ (("WARN" : String) = "OK"))⟩
    · rw [if_neg h]
      exact ⟨Or.inl rfl, fun _ => rfl⟩
  · rw [show mayaVersionObj.run = MayaVersionCheck.run { required_major := 2025 }
      from rfl]
    rw [mayaVersion_run_eq]
    by_cases h : firstTokenMajor s.version ≠ some (2025 : Int)
    · rw [if_pos h]
      exact ⟨Or.inr (Or.inl rfl),
        fun hx => absurd hx (by decide : ¬ (("WARN" : String) = "OK"))⟩
    · rw [if_neg h]
      exact ⟨Or.inl rfl, fun _ => rfl⟩
  · rw [show frameRangeObj.run = FrameRangeHandlesCheck.run
      { shot_start := 101, shot_end := 131, handle := 5 } from rfl]
    rw [FrameRangeHandlesCheck.frameRange_run_eq]
    by_cases h : (FrameRangeHandlesCheck.problems
        { shot_start := 101, shot_end := 131, handle := 5 } s ≠ [] ∨
      FrameRangeHandlesCheck.missing
        { shot_start := 101, shot_end := 131, handle := 5 } s ≠ [])
    · rw [if_pos h]
      exact ⟨Or.inr (Or.inl rfl),
        fun hx => absurd hx (by decide : ¬ (("WARN" : String) = "OK"))⟩
    · rw [if_neg h]
      exact ⟨Or.inl rfl, fun _ => rfl⟩
  · rw [show cameraClippingObj.run = CameraClippingPlanesCheck.run
      { near_max := 1, far_min := 5000 } from rfl]
    rw [CameraClippingPlanesCheck.clipping_run_eq]
    by_cases h : CameraClippingPlanesCheck.badTransforms
        { near_max := 1, far_min := 5000 } s ≠ []
    · rw [if_pos h]
      exact ⟨Or.inr (Or.inl rfl),
        fun hx => absurd hx (by decide : ¬ (("WARN" : String) = "OK"))⟩
    · rw [if_neg h]
      exact ⟨Or.inl rfl, fun _ => rfl⟩

/-- Witness for C8 at a concrete input: the invariant instantiated for the
version check on the empty scene. -/
theorem defaultChecks_severity_invariant_witness :
    ((mayaVersionObj.run emptyScene).2.severity = "OK" ∨
     (mayaVersionObj.run emptyScene).2.severity = "WARN" ∨
     (mayaVersionObj.run emptyScene).2.severity = "ERROR") ∧
    ((mayaVersionObj.run emptyScene).2.severity = "OK" →
      (mayaVersionObj.run emptyScene).2.nodes = []) :=
  defaultChecks_severity_invariant mayaVersionObj
    (List.mem_cons_of_mem _ (List.mem_cons_of_mem _ (List.mem_cons_self _ _)))
    emptyScene

theorem imagePlane_badOf_not_default {s : Scene} {camShape n : String}
    (h : CameraImagePlaneCheck.badOf s camShape = some n) :
    isDefaultMayaCamera n = false := by
  simp only [CameraImagePlaneCheck.badOf] at h
  by_cases hdef : isDefaultMayaCamera ((s.parentsFn camShape).headD camShape)
  · rw [if_pos hdef] at h
    cases h
  · rw [if_neg hdef] at h
    by_cases hpl : s.imagePlaneConnFn camShape ≠ []
    · rw [if_pos hpl] at h
      injection h with h
      subst h
      exact Bool.eq_false_iff.mpr hdef
    · rw [if_neg hpl] at h
      cases h

/-- C9: the four default Maya cameras (short names `persp`, `top`, `front`,
`side`) are never in the node list of an issue from the image-plane or
clipping-plane checks, and are never chosen as fallback targets of the
frame-range check when nothing is selected. -/
theorem defaultCameras_never_reported (cfg : CameraClippingPlanesCheck.Config)
    (s : Scene) :
    (∀ n ∈ (CameraImagePlaneCheck.run s).2.nodes, isDefaultMayaCamera n = false) ∧
    (∀ n ∈ (CameraClippingPlanesCheck.run cfg s).2.nodes,
      isDefaultMayaCamera n = false) ∧
    (s.selection = [] → ∀ n ∈ FrameRangeHandlesCheck.targets s,
      isDefaultMayaCamera n = false) := by
  refine ⟨?_, ?_, ?_⟩
  · intro n hn
    have hmem : n ∈ CameraImagePlaneCheck.badTransforms s := by
      rw [CameraImagePlaneCheck.imagePlane_run_eq] at hn
      by_cases h : CameraImagePlaneCheck.badTransforms s = []
      · rw [if_neg (by simp [h])] at hn
        cases hn
      · rw [if_pos h] at hn
        exact mem_pySortedSet.mp hn
    obtain ⟨camShape, hsh, hbad⟩ :=
      List.mem_filterMap.mp hmem
    exact imagePlane_badOf_not_default hbad
  · intro n hn
    obtain ⟨camShape, hsh, hprop⟩ := ((cameraClipping_spec cfg s).1 n).mp hn
    exact hprop.2.1
  · intro hsel n hn
    unfold FrameRangeHandlesCheck.targets at hn
    rw [if_pos (by rw [hsel]; rfl)] at hn
    obtain ⟨camShape, hsh, hbad⟩ :=
      List.mem_filterMap.mp hn
    simp only at hbad
    by_cases hdef : isDefaultMayaCamera ((s.parentsFn camShape).headD camShape)
    · rw [if_pos hdef] at hbad
      cases hbad
    · rw [if_neg hdef] at hbad
      injection hbad with hbad
      subst hbad
      exact Bool.eq_false_iff.mpr hdef

/-- Witness for C9 at a concrete input: `cam1`, the fallback target of the
frame-range check in the clipping demo scene, is not a default camera. -/
theorem defaultCameras_never_reported_witness :
    isDefaultMayaCamera "cam1" = false :=
  (defaultCameras_never_reported clipCfg clipScene).2.2 rfl "cam1" (by decide)

/-- C10: `MayaVersionCheck.run` returns severity `OK` iff the first
whitespace-separated token of the host's version string parses as a Python
integer equal to `required_major`; every other version string (including
unparsable ones) yields the `WARN` issue; and the issue's node list is
always empty with `fixable = False`. -/
theorem mayaVersion_spec (cfg : MayaVersionCheck.Config) (s : Scene) :
    ((MayaVersionCheck.run cfg s).2.severity = "OK" ↔
      firstTokenMajor s.version = some cfg.required_major) ∧
    ((MayaVersionCheck.run cfg s).2.severity = "OK" ∨
     (MayaVersionCheck.run cfg s).2.severity = "WARN") ∧
    (MayaVersionCheck.run cfg s).2.nodes = [] ∧
    (MayaVersionCheck.run cfg s).2.fixable = false := by
  rw [mayaVersion_run_eq]
  by_cases h : firstTokenMajor s.version ≠ some cfg.required_major
  · rw [if_pos h]
    refine ⟨⟨fun hx => absurd hx (by decide : ¬ (("WARN" : String) = "OK")), ?_⟩,
      Or.inr rfl, rfl, rfl⟩
    intro hx
    exact absurd hx h
  · rw [if_neg h]
    push_neg at h
    exact ⟨⟨fun _ => h, fun _ => rfl⟩, Or.inl rfl, rfl, rfl⟩

/-- Witness for C10 at concrete inputs: version `"2025.3 build"` is accepted
by the default configuration, and the unparsable version `"Preview 2026"`
is not (first token `Preview` fails `int()`), yielding `WARN`. -/
theorem mayaVersion_spec_witness :
    (MayaVersionCheck.run { required_major := 2025 }
      { emptyScene with version := "2025 x64" }).2.severity = "OK" ∧
    (MayaVersionCheck.run { required_major := 2025 }
      { emptyScene with version := "Preview 2026" }).2.severity = "WARN" := by
  constructor
  · exact (mayaVersion_spec { required_major := 2025 }
      { emptyScene with version := "2025 x64" }).1.mpr (by decide)
  · rcases (mayaVersion_spec { required_major := 2025 }
      { emptyScene with version := "Preview 2026" }).2.1 with h | h
    · exact absurd ((mayaVersion_spec { required_major := 2025 }
        { emptyScene with version := "Preview 2026" }).1.mp h) (by decide)
    · exact h
